import Mathlib

/-!
Verification of the RENEC registry reconciliation pipeline of the `avala`
repository: the seed script `packages/db/prisma/seed-renec.ts` (loader,
sector/committee/standard/certifier/center resolvers, relationship graph
builder, sync ledger) and the coverage/integrity validation script shipped
alongside it.

The embedding is a faithful pure-functional translation of the TypeScript:

* The relational store is a `DB` record of association lists keyed by the
  natural keys the seed script upserts on (each of those columns carries a
  UNIQUE index in the schema, so a row's canonical identity is represented
  here by its natural key; the generated UUID is an opaque alias for it).
* `prisma.X.upsert` on a unique key is `upsertA` (replace-in-place or
  append); `createMany` with duplicate skipping is `createManySkipDup`.
  Batch partitioning (`BATCH_SIZE` slices) performs the same upsert
  sequence as a single pass, so the fold is over the whole list.
* JavaScript `Map` is an insertion-ordered association list (`jsMapSet`
  overwrites in place), `parseInt(s, 10)` is `jsParseInt`,
  `String.prototype.toUpperCase`/`includes`/`trim` are `jsToUpper`,
  `strIncludes`, `String.trim`.
* `contentHash` is the real thing: SHA-256 (word arithmetic on `Nat`
  reduced mod `2 ^ 32`) over the UTF-8 bytes of the `JSON.stringify`
  serialization, hex-encoded, first 16 characters.
* Wall-clock values (`new Date()`) enter as explicit `Nat` parameters.
-/

namespace Avala

/-! ## JavaScript-style primitives -/

/-- `Map.prototype.get` on an insertion-ordered association list. -/
def mapGet {κ ρ : Type} [DecidableEq κ] (m : List (κ × ρ)) (k : κ) : Option ρ :=
  match m with
  | [] => none
  | (k0, v0) :: rest => if k = k0 then some v0 else mapGet rest k

/-- `Map.prototype.has`. -/
def mapHas {κ ρ : Type} [DecidableEq κ] (m : List (κ × ρ)) (k : κ) : Bool :=
  (mapGet m k).isSome

/-- `Map.prototype.set`: overwrite in place when the key exists (keeping its
position, as a JavaScript Map does), otherwise append. -/
def jsMapSet {κ ρ : Type} [DecidableEq κ] (m : List (κ × ρ)) (k : κ) (v : ρ) :
    List (κ × ρ) :=
  match m with
  | [] => [(k, v)]
  | (k0, v0) :: rest =>
    if k = k0 then (k0, v) :: rest else (k0, v0) :: jsMapSet rest k v

/-- Keys in first-occurrence order: the key set of a Map populated by
`set` calls in list order (used for the lookup maps the seed steps return,
whose values are the opaque row ids of the keyed rows). -/
def dedupKeys {κ : Type} [DecidableEq κ] (l : List κ) : List κ :=
  l.foldl (fun acc k => if k ∈ acc then acc else acc ++ [k]) []

/-- ASCII uppercase of one character, as `toUpperCase` acts on ASCII. -/
def charUpper (c : Char) : Char :=
  if 'a' ≤ c ∧ c ≤ 'z' then Char.ofNat (c.toNat - 32) else c

/-- `String.prototype.toUpperCase` (ASCII range; the keywords the seed
script tests for are ASCII). -/
def jsToUpper (s : String) : String := String.mk (s.data.map charUpper)

def isPrefixB : List Char → List Char → Bool
  | [], _ => true
  | _ :: _, [] => false
  | a :: as, b :: bs => a = b && isPrefixB as bs

def includesChars (hay needle : List Char) : Bool :=
  if isPrefixB needle hay then true
  else
    match hay with
    | [] => false
    | _ :: t => includesChars t needle

/-- `String.prototype.includes`. -/
def strIncludes (hay needle : String) : Bool := includesChars hay.data needle.data

/-- Leading decimal digits as a value, `none` when the first character is
not a digit. -/
def leadingDigits : List Char → Option Nat
  | [] => none
  | c :: rest =>
    if c.isDigit then
      some (rest.takeWhile Char.isDigit |>.foldl
        (fun acc d => acc * 10 + (d.toNat - 48)) (c.toNat - 48))
    else none

/-- `parseInt(s, 10)`: skip leading whitespace, optional sign, then the
longest digit run; `none` models `NaN`. -/
def jsParseInt (s : String) : Option Int :=
  match s.data.dropWhile (fun c => c.isWhitespace) with
  | '-' :: rest => (leadingDigits rest).map (fun n => -(n : Int))
  | '+' :: rest => (leadingDigits rest).map (fun n => (n : Int))
  | cs => (leadingDigits cs).map (fun n => (n : Int))

/-! ## JSON values and `JSON.stringify` -/

/-- A parsed JSON value, the shape of every raw record the seed script
hashes (numeric fields of the extracts are integers). -/
inductive Json where
  | nullJ : Json
  | boolJ (b : Bool) : Json
  | numJ (n : Int) : Json
  | strJ (s : String) : Json
  | arrJ (items : List Json) : Json
  | objJ (fields : List (String × Json)) : Json

def quoteChar : Char := Char.ofNat 34
def backslashChar : Char := Char.ofNat 92
def lbraceChar : Char := Char.ofNat 123
def rbraceChar : Char := Char.ofNat 125

def hexDigitChar (n : Nat) : Char :=
  if n < 10 then Char.ofNat (48 + n) else Char.ofNat (87 + n)

/-- `JSON.stringify` escaping of one character inside a string literal. -/
def jsonEscapeChar (c : Char) : List Char :=
  if c = quoteChar then [backslashChar, quoteChar]
  else if c = backslashChar then [backslashChar, backslashChar]
  else if c.toNat = 8 then [backslashChar, 'b']
  else if c.toNat = 9 then [backslashChar, 't']
  else if c.toNat = 10 then [backslashChar, 'n']
  else if c.toNat = 12 then [backslashChar, 'f']
  else if c.toNat = 13 then [backslashChar, 'r']
  else if c.toNat < 32 then
    [backslashChar, 'u', '0', '0', hexDigitChar (c.toNat / 16), hexDigitChar (c.toNat % 16)]
  else [c]

def jsonQuote (s : String) : List Char :=
  quoteChar :: (s.data.flatMap jsonEscapeChar) ++ [quoteChar]

def joinComma (parts : List (List Char)) : List Char :=
  match parts with
  | [] => []
  | [p] => p
  | p :: q :: rest => p ++ ',' :: joinComma (q :: rest)

mutual

/-- `JSON.stringify` as the character list of the serialization. -/
def stringify : Json → List Char
  | .nullJ => "null".data
  | .boolJ true => "true".data
  | .boolJ false => "false".data
  | .numJ n => (toString n).data
  | .strJ s => jsonQuote s
  | .arrJ items => '[' :: stringifyItems items ++ [']']
  | .objJ fields => lbraceChar :: stringifyFields fields ++ [rbraceChar]

def stringifyItems : List Json → List Char
  | [] => []
  | [j] => stringify j
  | j :: j2 :: rest => stringify j ++ ',' :: stringifyItems (j2 :: rest)

def stringifyFields : List (String × Json) → List Char
  | [] => []
  | [(k, j)] => jsonQuote k ++ ':' :: stringify j
  | (k, j) :: f2 :: rest => jsonQuote k ++ ':' :: stringify j ++ ',' :: stringifyFields (f2 :: rest)

end

/-- UTF-8 bytes of one character (how Node feeds a string to a hash). -/
def charUtf8 (c : Char) : List Nat :=
  let n := c.toNat
  if n < 128 then [n]
  else if n < 2048 then [192 + n / 64, 128 + n % 64]
  else if n < 65536 then [224 + n / 4096, 128 + n / 64 % 64, 128 + n % 64]
  else [240 + n / 262144, 128 + n / 4096 % 64, 128 + n / 64 % 64, 128 + n % 64]

def utf8Bytes (cs : List Char) : List Nat := cs.flatMap charUtf8

/-! ## SHA-256

Straight FIPS 180-4, words as `Nat` reduced mod `2 ^ 32`, validated
against the standard test vectors. -/

def M32 : Nat := 2 ^ 32

def rotr32 (n x : Nat) : Nat := ((x >>> n) ||| (x <<< (32 - n))) % M32

def bsig0 (x : Nat) : Nat := rotr32 2 x ^^^ rotr32 13 x ^^^ rotr32 22 x
def bsig1 (x : Nat) : Nat := rotr32 6 x ^^^ rotr32 11 x ^^^ rotr32 25 x
def ssig0 (x : Nat) : Nat := rotr32 7 x ^^^ rotr32 18 x ^^^ (x >>> 3)
def ssig1 (x : Nat) : Nat := rotr32 17 x ^^^ rotr32 19 x ^^^ (x >>> 10)

/-- `Ch(e, f, g)`; the complement of `e` is `0xFFFFFFFF - e` for a reduced
word. -/
def chF (e f g : Nat) : Nat := (e &&& f) ^^^ ((M32 - 1 - e % M32) &&& g)

def majF (a b c : Nat) : Nat := (a &&& b) ^^^ (a &&& c) ^^^ (b &&& c)

def sha256K : List Nat :=
  [1116352408, 1899447441, 3049323471, 3921009573, 961987163, 1508970993,
   2453635748, 2870763221, 3624381080, 310598401, 607225278, 1426881987,
   1925078388, 2162078206, 2614888103, 3248222580, 3835390401, 4022224774,
   264347078, 604807628, 770255983, 1249150122, 1555081692, 1996064986,
   2554220882, 2821834349, 2952996808, 3210313671, 3336571891, 3584528711,
   113926993, 338241895, 666307205, 773529912, 1294757372, 1396182291,
   1695183700, 1986661051, 2177026350, 2456956037, 2730485921, 2820302411,
   3259730800, 3345764771, 3516065817, 3600352804, 4094571909, 275423344,
   430227734, 506948616, 659060556, 883997877, 958139571, 1322822218,
   1537002063, 1747873779, 1955562222, 2024104815, 2227730452, 2361852424,
   2428436474, 2756734187, 3204031479, 3329325298]

def sha256H0 : List Nat :=
  [1779033703, 3144134277, 1013904242, 2773480762, 1359893119, 2600822924,
   528734635, 1541459225]

def beBytes : Nat → Nat → List Nat
  | 0, _ => []
  | k + 1, n => beBytes k (n / 256) ++ [n % 256]

/-- Pad to a 64-byte-block boundary: `0x80`, zeros, 8-byte big-endian bit
length. -/
def padBytes (m : List Nat) : List Nat :=
  m ++ [0x80] ++ List.replicate ((64 + 55 - m.length % 64) % 64) 0 ++ beBytes 8 (8 * m.length)

def bytesToWords : List Nat → List Nat
  | b1 :: b2 :: b3 :: b4 :: rest => (((b1 * 256 + b2) * 256 + b3) * 256 + b4) :: bytesToWords rest
  | _ => []

def chunksOf64Aux : Nat → List Nat → List (List Nat)
  | 0, _ => []
  | _, [] => []
  | fuel + 1, a :: rest => (a :: rest.take 63) :: chunksOf64Aux fuel (rest.drop 63)

def chunksOf64 (l : List Nat) : List (List Nat) := chunksOf64Aux l.length l

def scheduleStep (w : List Nat) : List Nat :=
  w ++ [(ssig1 (w.getD (w.length - 2) 0) + w.getD (w.length - 7) 0 +
         ssig0 (w.getD (w.length - 15) 0) + w.getD (w.length - 16) 0) % M32]

/-- Extend 16 message words to the 64-word schedule. -/
def schedule (w : List Nat) : List Nat :=
  (List.range 48).foldl (fun acc _ => scheduleStep acc) w

def roundStep (st : List Nat) (kw : Nat) : List Nat :=
  match st with
  | [a, b, c, d, e, f, g, h] =>
    let t1 := (h + bsig1 e + chF e f g + kw) % M32
    let t2 := (bsig0 a + majF a b c) % M32
    [(t1 + t2) % M32, a, b, c, (d + t1) % M32, e, f, g]
  | _ => st

def compress (h : List Nat) (chunkWords : List Nat) : List Nat :=
  let w := schedule chunkWords
  let kw := (sha256K.zip w).map (fun p => (p.1 + p.2) % M32)
  let st := kw.foldl roundStep h
  (h.zip st).map (fun p => (p.1 + p.2) % M32)

def sha256Words (msg : List Nat) : List Nat :=
  (chunksOf64 (padBytes msg)).foldl (fun h c => compress h (bytesToWords c)) sha256H0

/-- The 256-bit digest as one `Nat` (the final reduction is the identity on
the composed 8 words and makes the width explicit). -/
def sha256Nat (msg : List Nat) : Nat :=
  ((sha256Words msg).foldl (fun acc w => acc * M32 + w % M32) 0) % 2 ^ 256

/-- Fixed-width lowercase hex, most significant digit first (the shape of
`digest("hex")`, which always emits 64 digits for SHA-256). -/
def toHexPad : Nat → Nat → List Char
  | 0, _ => []
  | k + 1, n => toHexPad k (n / 16) ++ [hexDigitChar (n % 16)]

/-- `contentHash` of seed-renec.ts:
`createHash("sha256").update(JSON.stringify(obj)).digest("hex").slice(0, 16)`. -/
def contentHash (obj : Json) : String :=
  String.mk ((toHexPad 64 (sha256Nat (utf8Bytes (stringify obj)))).take 16)

/-! ## Extracted-record shapes (the parsed JSON input files) -/

structure ExtractedEC where
  idEstandarCompetencia : String
  idSectorProductivo : String
  codigo : String
  nivel : String
  titulo : String
  comite : String
  secProductivo : String
deriving DecidableEq

structure EstandarAsociado where
  codigo : String
  titulo : String
deriving DecidableEq

structure ExtractedCommittee where
  clave : String
  nombre : String
  presidente : Option String
  vicepresidente : Option String
  calleNumero : Option String
  colonia : Option String
  codigoPostal : Option Int
  localidad : Option String
  telefonos : Option String
  correo : Option String
  url : Option String
  idSectorProductivo : Option Int
  sectorProductivoStr : Option String
  puestoPresidente : Option String
  puestoVicepresidente : Option String
  fechaIntegracion : Option Int
  idTipoComite : Option Int
  contacto : Option String
  delegacionStr : Option String
  entidadStr : Option String
  estandaresAsociados : List EstandarAsociado
  id : Int
deriving DecidableEq

structure ExtractedCertifier where
  id : String
  canonical_name : String
  alternate_names : List String
  normalized_key : String
  entity_type : String
  ec_codes : List String
deriving DecidableEq

structure ExtractedCenter where
  id : String
  canonical_name : String
  alternate_names : List String
  normalized_key : String
  ec_codes : List String
  ec_count : Int
deriving DecidableEq

/-- One value of the `matrix` record of ec_ece_matrix.json. -/
structure MatrixEntry where
  ece_ids : List String
  ece_count : Int
  title : String
deriving DecidableEq

/-- One value of the `ec_details` record of ec_certifiers_all.json. -/
structure ECDetail where
  title : String
  certifiers : List String
  courses : List String
  occupations : List String
  committee_members : List String
deriving DecidableEq

/-! ## Encoding raw records back to JSON values for `contentHash`

The seed script hashes the parsed objects themselves; their key order is
the key order of the input files, which the interfaces in seed-renec.ts
transcribe, so the encoders below emit fields in interface order. -/

def optStrJ : Option String → Json
  | none => Json.nullJ
  | some s => Json.strJ s

def optIntJ : Option Int → Json
  | none => Json.nullJ
  | some n => Json.numJ n

def encodeEC (ec : ExtractedEC) : Json :=
  Json.objJ
    [("idEstandarCompetencia", Json.strJ ec.idEstandarCompetencia),
     ("idSectorProductivo", Json.strJ ec.idSectorProductivo),
     ("codigo", Json.strJ ec.codigo),
     ("nivel", Json.strJ ec.nivel),
     ("titulo", Json.strJ ec.titulo),
     ("comite", Json.strJ ec.comite),
     ("secProductivo", Json.strJ ec.secProductivo)]

def encodeCommittee (c : ExtractedCommittee) : Json :=
  Json.objJ
    [("clave", Json.strJ c.clave),
     ("nombre", Json.strJ c.nombre),
     ("presidente", optStrJ c.presidente),
     ("vicepresidente", optStrJ c.vicepresidente),
     ("calleNumero", optStrJ c.calleNumero),
     ("colonia", optStrJ c.colonia),
     ("codigoPostal", optIntJ c.codigoPostal),
     ("localidad", optStrJ c.localidad),
     ("telefonos", optStrJ c.telefonos),
     ("correo", optStrJ c.correo),
     ("url", optStrJ c.url),
     ("idSectorProductivo", optIntJ c.idSectorProductivo),
     ("sectorProductivoStr", optStrJ c.sectorProductivoStr),
     ("puestoPresidente", optStrJ c.puestoPresidente),
     ("puestoVicepresidente", optStrJ c.puestoVicepresidente),
     ("fechaIntegracion", optIntJ c.fechaIntegracion),
     ("idTipoComite", optIntJ c.idTipoComite),
     ("contacto", optStrJ c.contacto),
     ("delegacionStr", optStrJ c.delegacionStr),
     ("entidadStr", optStrJ c.entidadStr),
     ("estandaresAsociados", Json.arrJ (c.estandaresAsociados.map (fun ea =>
       Json.objJ [("codigo", Json.strJ ea.codigo), ("titulo", Json.strJ ea.titulo)]))),
     ("id", Json.numJ c.id)]

def encodeCertifier (cert : ExtractedCertifier) : Json :=
  Json.objJ
    [("id", Json.strJ cert.id),
     ("canonical_name", Json.strJ cert.canonical_name),
     ("alternate_names", Json.arrJ (cert.alternate_names.map Json.strJ)),
     ("normalized_key", Json.strJ cert.normalized_key),
     ("entity_type", Json.strJ cert.entity_type),
     ("ec_codes", Json.arrJ (cert.ec_codes.map Json.strJ))]

def encodeCenter (c : ExtractedCenter) : Json :=
  Json.objJ
    [("id", Json.strJ c.id),
     ("canonical_name", Json.strJ c.canonical_name),
     ("alternate_names", Json.arrJ (c.alternate_names.map Json.strJ)),
     ("normalized_key", Json.strJ c.normalized_key),
     ("ec_codes", Json.arrJ (c.ec_codes.map Json.strJ)),
     ("ec_count", Json.numJ c.ec_count)]

/-- The object literal hashed per sector: `{ sectorId: sectorIdInt, nombre }`. -/
def encodeSectorSeed (sectorId : Int) (nombre : String) : Json :=
  Json.objJ [("sectorId", Json.numJ sectorId), ("nombre", Json.strJ nombre)]

/-! ## Store rows

Each table the seed script writes is keyed by the UNIQUE natural-key
column it upserts on; the generated UUID of a row is an opaque name for
that key, so canonical identities are represented by the natural keys. -/

inductive Tipo where
  | ECE : Tipo
  | OC : Tipo
deriving DecidableEq

structure SectorRow where
  nombre : String
  tipo : String
  sourceUrl : String
  contentHash : String
  lastSyncedAt : Nat
deriving DecidableEq

structure CommitteeRow where
  nombre : String
  presidente : Option String
  vicepresidente : Option String
  puestoPresidente : Option String
  puestoVicepresidente : Option String
  contacto : Option String
  correo : Option String
  telefonos : Option String
  url : Option String
  calleNumero : Option String
  colonia : Option String
  codigoPostal : Option String
  localidad : Option String
  delegacion : Option String
  entidad : Option String
  fechaIntegracion : Option Int
  idTipoComite : Option Int
  sectorId : Option Int
  sourceUrl : String
  contentHash : String
  lastSyncedAt : Nat
deriving DecidableEq

structure ECRow where
  titulo : String
  version : String
  vigente : Bool
  sector : Option String
  nivelCompetencia : Option Int
  proposito : Option String
  committeeId : Option String
  sectorId : Option Int
  competencias : Json
  elementosJson : List Json
  critDesempeno : List Json
  critConocimiento : List Json
  critProducto : List Json
  sourceUrl : String
  contentHash : String
  lastSyncedAt : Nat

structure CertifierRow where
  razonSocial : String
  nombreComercial : Option String
  activo : Bool
  tipo : Tipo
  alternateNames : List String
  normalizedKey : Option String
  sourceUrl : String
  contentHash : String
  lastSyncedAt : Nat
deriving DecidableEq

structure CenterRow where
  nombre : String
  activo : Bool
  alternateNames : List String
  normalizedKey : Option String
  sourceUrl : String
  contentHash : String
  lastSyncedAt : Nat
deriving DecidableEq

structure SyncJob where
  jobType : String
  status : String
  startedAt : Nat
  completedAt : Nat
  itemsProcessed : Nat
  itemsCreated : Nat
  itemsUpdated : Nat
  itemsSkipped : Nat
  errors : List String
deriving DecidableEq

/-- The RENEC tables the pipeline touches. Join tables hold key pairs:
occupations `(ecClave, occupation)`, accreditations
`(certId, ecClave)`, offerings `(centerId, ecClave)`. -/
structure DB where
  sectors : List (Int × SectorRow)
  committees : List (String × CommitteeRow)
  ecs : List (String × ECRow)
  certifiers : List (String × CertifierRow)
  centers : List (String × CenterRow)
  occupations : List (String × String)
  accreditations : List (String × String)
  offerings : List (String × String)
  syncJobs : List SyncJob

def emptyDB : DB := ⟨[], [], [], [], [], [], [], [], []⟩

/-- A sequence of `prisma.X.upsert` calls on a unique key: each entry
replaces the row with its key in place or appends a new row. -/
def upsertMany {κ ρ : Type} [DecidableEq κ] (rows : List (κ × ρ))
    (entries : List (κ × ρ)) : List (κ × ρ) :=
  entries.foldl (fun r e => jsMapSet r e.1 e.2) rows

/-- `createMany` with `skipDuplicates: true` over a uniqueness-constrained
shape: appends each datum not already present (also deduplicating inside
the submitted data, as ON CONFLICT DO NOTHING does) and counts the rows
actually inserted. -/
def createManySkipDup {π : Type} [DecidableEq π] (rows : List π) (data : List π) :
    List π × Nat :=
  data.foldl (fun acc p => if p ∈ acc.1 then acc else (acc.1 ++ [p], acc.2 + 1)) (rows, 0)

def renecSourceUrl : String := "https://conocer.gob.mx/conocer/#/renec"

/-! ## Step 1: seedSectors -/

/-- The sector Map built from the EC extract: first name seen per parsed
sector id, with the `Sector n` fallback for an empty name. -/
def sectorNameMap (ecStandards : List ExtractedEC) : List (Int × String) :=
  ecStandards.foldl (fun m ec =>
    match jsParseInt ec.idSectorProductivo with
    | none => m
    | some i =>
      if mapHas m i then m
      else jsMapSet m i (if ec.secProductivo = "" then "Sector " ++ toString i else ec.secProductivo)) []

def sectorEntries (ecStandards : List ExtractedEC) (now : Nat) : List (Int × SectorRow) :=
  (sectorNameMap ecStandards).map (fun e =>
    (e.1,
     { nombre := e.2, tipo := "productivo", sourceUrl := renecSourceUrl,
       contentHash := contentHash (encodeSectorSeed e.1 e.2), lastSyncedAt := now }))

/-- Step 1: upsert the distinct sectors; the returned lookup holds exactly
the upserted sector ids (the UUIDs it maps them to are the rows named by
those ids). -/
def seedSectors (ecStandards : List ExtractedEC) (now : Nat) (db : DB) :
    DB × List Int :=
  ({ db with sectors := upsertMany db.sectors (sectorEntries ecStandards now) },
   (sectorNameMap ecStandards).map (fun e => e.1))

/-! ## Step 2: seedCommittees -/

def committeeRowOf (sectorKeys : List Int) (now : Nat) (c : ExtractedCommittee) :
    CommitteeRow :=
  { nombre := c.nombre
    presidente := c.presidente
    vicepresidente := c.vicepresidente
    puestoPresidente := c.puestoPresidente
    puestoVicepresidente := c.puestoVicepresidente
    contacto := c.contacto
    correo := c.correo
    telefonos := c.telefonos
    url := c.url
    calleNumero := c.calleNumero
    colonia := c.colonia
    codigoPostal := c.codigoPostal.map (fun n => toString n)
    localidad := c.localidad
    delegacion := c.delegacionStr
    entidad := c.entidadStr
    fechaIntegracion := c.fechaIntegracion
    idTipoComite := c.idTipoComite
    sectorId :=
      match c.idSectorProductivo with
      | some i => if i ∈ sectorKeys then some i else none
      | none => none
    sourceUrl := renecSourceUrl
    contentHash := contentHash (encodeCommittee c)
    lastSyncedAt := now }

def committeeEntries (committees : List ExtractedCommittee) (sectorKeys : List Int)
    (now : Nat) : List (String × CommitteeRow) :=
  committees.map (fun c => (c.clave, committeeRowOf sectorKeys now c))

/-- Step 2: upsert committees by `committeeKey`; the returned lookup keys
are the distinct claves processed, in first-occurrence order. -/
def seedCommittees (committees : List ExtractedCommittee) (sectorKeys : List Int)
    (now : Nat) (db : DB) : DB × List String :=
  ({ db with committees := upsertMany db.committees (committeeEntries committees sectorKeys now) },
   dedupKeys (committees.map (fun c => c.clave)))

/-! ## Step 3: seedECStandards (with the module-level reverse-index cache) -/

def indexInsertEA (m : List (String × String)) (clave : String) (ea : EstandarAsociado) :
    List (String × String) :=
  if ea.codigo ≠ "" then jsMapSet m ea.codigo clave else m

def indexInsertCommittee (m : List (String × String)) (c : ExtractedCommittee) :
    List (String × String) :=
  c.estandaresAsociados.foldl (fun acc ea => indexInsertEA acc c.clave ea) m

/-- The reverse index ecClave → committee clave built by the nested loops
of `buildEcToCommitteeKeyIndex` (later committees overwrite earlier
claimants of the same code). -/
def buildIndex (committees : List ExtractedCommittee) : List (String × String) :=
  committees.foldl indexInsertCommittee []

/-- `buildEcToCommitteeKeyIndex` with its module-level cache made explicit:
the cache is consulted first; only a `null` cache triggers a build, and
the argument list is otherwise ignored. -/
def buildEcToCommitteeKeyIndex (cache : Option (List (String × String)))
    (committees : List ExtractedCommittee) :
    List (String × String) × Option (List (String × String)) :=
  match cache with
  | some m => (m, some m)
  | none => (buildIndex committees, some (buildIndex committees))

/-- `val || null` on a nullable string field: empty strings also map to
JSON null. -/
def optStrOrNull : Option String → Json
  | none => Json.nullJ
  | some s => if s = "" then Json.nullJ else Json.strJ s

def strOrNull (s : String) : Json := if s = "" then Json.nullJ else Json.strJ s

def buildCompetenciasJson (ec : ExtractedEC) (committee : Option ExtractedCommittee)
    (ecDetail : Option ECDetail) : Json :=
  Json.objJ
    ([("comite", strOrNull ec.comite),
      ("idSectorProductivo", strOrNull ec.idSectorProductivo),
      ("idEstandarCompetencia", strOrNull ec.idEstandarCompetencia)] ++
     (match committee with
      | some c =>
        [("committeeKey", strOrNull c.clave),
         ("committeeName", strOrNull c.nombre),
         ("committeePresident", optStrOrNull c.presidente),
         ("committeeContact", optStrOrNull c.correo),
         ("committeeSector", optStrOrNull c.sectorProductivoStr),
         ("committeeState", optStrOrNull c.entidadStr)]
      | none => []) ++
     (match ecDetail with
      | some d =>
        [("occupations", Json.arrJ (d.occupations.map Json.strJ)),
         ("courses", Json.arrJ (d.courses.map Json.strJ)),
         ("committeeMembers", Json.arrJ (d.committee_members.map Json.strJ))]
      | none => []))

def ecRowOf (committees : List ExtractedCommittee)
    (ecDetails : Option (List (String × ECDetail))) (sectorKeys : List Int)
    (committeeKeys : List String) (idx : List (String × String)) (now : Nat)
    (ec : ExtractedEC) : ECRow :=
  let committeeKey := mapGet idx ec.codigo
  let committeeDbId :=
    match committeeKey with
    | some k => if k ∈ committeeKeys then some k else none
    | none => none
  let sectorDbId :=
    match jsParseInt ec.idSectorProductivo with
    | some i => if i ∈ sectorKeys then some i else none
    | none => none
  let ecDetail :=
    match ecDetails with
    | some ds => mapGet ds ec.codigo
    | none => none
  let committeeData :=
    match committeeKey with
    | some k => committees.find? (fun c => c.clave = k)
    | none => none
  { titulo := ec.titulo
    version := "01"
    vigente := true
    sector := if ec.secProductivo = "" then none else some ec.secProductivo
    nivelCompetencia := if ec.nivel = "" then none else jsParseInt ec.nivel
    proposito := none
    committeeId := committeeDbId
    sectorId := sectorDbId
    competencias := buildCompetenciasJson ec committeeData ecDetail
    elementosJson := []
    critDesempeno := []
    critConocimiento := []
    critProducto := []
    sourceUrl := renecSourceUrl
    contentHash := contentHash (encodeEC ec)
    lastSyncedAt := now }

/-- The upserts of the EC pass: records with an empty `codigo` are the
logged defensive no-ops and produce no entry. -/
def ecEntries (ecStandards : List ExtractedEC) (committees : List ExtractedCommittee)
    (ecDetails : Option (List (String × ECDetail))) (sectorKeys : List Int)
    (committeeKeys : List String) (idx : List (String × String)) (now : Nat) :
    List (String × ECRow) :=
  ecStandards.filterMap (fun ec =>
    if ec.codigo = "" then none
    else some (ec.codigo, ecRowOf committees ecDetails sectorKeys committeeKeys idx now ec))

/-- The occupation pairs collected from `ec_details`, for standards that
were upserted this run, with empty labels trimmed away. -/
def occupationPairs (ds : List (String × ECDetail)) (ecDbIds : List String) :
    List (String × String) :=
  ds.foldl (fun acc e =>
    if e.1 ∈ ecDbIds then
      acc ++ e.2.occupations.filterMap (fun o =>
        if o.trim ≠ "" then some (e.1, o.trim) else none)
    else acc) []

/-- Step 3: upsert standards by `ecClave`, then bulk-insert occupation
pairs with duplicate skipping. Returns the new store, the reported
`created` count (the source counts every batch element, an explicit
upsert approximation), and the updated module cache. -/
def seedECStandards (ecStandards : List ExtractedEC)
    (committees : List ExtractedCommittee)
    (ecDetails : Option (List (String × ECDetail))) (sectorKeys : List Int)
    (committeeKeys : List String) (cache : Option (List (String × String)))
    (now : Nat) (db : DB) : DB × Nat × Option (List (String × String)) :=
  let built := buildEcToCommitteeKeyIndex cache committees
  let entries := ecEntries ecStandards committees ecDetails sectorKeys committeeKeys built.1 now
  let db1 := { db with ecs := upsertMany db.ecs entries }
  let ecDbIds := dedupKeys (entries.map (fun e => e.1))
  let db2 :=
    match ecDetails with
    | none => db1
    | some ds =>
      { db1 with occupations := (createManySkipDup db1.occupations (occupationPairs ds ecDbIds)).1 }
  (db2, ecStandards.length, built.2)

/-! ## Steps 4 and 5: seedCertifiers / seedCenters -/

/-- The certifier entity-type classifier of seed-renec.ts: OC on an
uppercase containment hit for the OC/GOBIERNO keywords, ECE for
everything else. -/
def resolveCertifierTipo (entityType : String) : Tipo :=
  let upper := jsToUpper entityType
  if strIncludes upper "OC" || strIncludes upper "GOBIERNO" then Tipo.OC else Tipo.ECE

def certifierRowOf (now : Nat) (cert : ExtractedCertifier) : CertifierRow :=
  { razonSocial := cert.canonical_name
    nombreComercial := none
    activo := true
    tipo := resolveCertifierTipo cert.entity_type
    alternateNames := cert.alternate_names
    normalizedKey := some cert.normalized_key
    sourceUrl := renecSourceUrl
    contentHash := contentHash (encodeCertifier cert)
    lastSyncedAt := now }

def seedCertifiers (registry : List ExtractedCertifier) (now : Nat) (db : DB) :
    DB × Nat :=
  ({ db with certifiers := upsertMany db.certifiers (registry.map (fun c => (c.id, certifierRowOf now c))) },
   registry.length)

def centerRowOf (now : Nat) (center : ExtractedCenter) : CenterRow :=
  { nombre := center.canonical_name
    activo := true
    alternateNames := center.alternate_names
    normalizedKey := some center.normalized_key
    sourceUrl := renecSourceUrl
    contentHash := contentHash (encodeCenter center)
    lastSyncedAt := now }

def seedCenters (registry : List ExtractedCenter) (now : Nat) (db : DB) :
    DB × Nat :=
  ({ db with centers := upsertMany db.centers (registry.map (fun c => (c.id, centerRowOf now c))) },
   registry.length)

/-! ## Step 6: seedAccreditations -/

/-- The pair-collection loop: resolved pairs in matrix order, plus the
loop counter that counts certifier ids missing from the lookup (entries
whose standard is unresolved are passed over without touching it). -/
def collectAccPairs (matrix : List (String × MatrixEntry)) (ecKeys certKeys : List String) :
    List (String × String) × Nat :=
  matrix.foldl (fun acc e =>
    if e.1 ∈ ecKeys then
      e.2.ece_ids.foldl (fun acc2 eceId =>
        if eceId ∈ certKeys then (acc2.1 ++ [(eceId, e.1)], acc2.2) else (acc2.1, acc2.2 + 1))
        acc
    else acc) ([], 0)

/-- Every (standard, certifier) pair the matrix extract carries. -/
def accreditationPairsAttempted (matrix : List (String × MatrixEntry)) : Nat :=
  (matrix.map (fun e => e.2.ece_ids.length)).sum

/-- Step 6: resolve the matrix against the store and bulk-insert with
duplicate skipping. The returned skip count is `pairs.length - created`,
the reassignment in the source that discards the collection loop counter. -/
def seedAccreditations (matrix : List (String × MatrixEntry)) (db : DB) :
    DB × Nat × Nat :=
  let ecKeys := db.ecs.map (fun e => e.1)
  let certKeys := db.certifiers.map (fun e => e.1)
  let collected := collectAccPairs matrix ecKeys certKeys
  let inserted := createManySkipDup db.accreditations collected.1
  ({ db with accreditations := inserted.1 }, inserted.2, collected.1.length - inserted.2)

/-! ## Step 7: seedCenterOfferings -/

def collectOfferingPairs (registry : List ExtractedCenter) (centerKeys ecKeys : List String) :
    List (String × String) × Nat :=
  registry.foldl (fun acc center =>
    if center.id ∈ centerKeys then
      center.ec_codes.foldl (fun acc2 code =>
        if code ∈ ecKeys then (acc2.1 ++ [(center.id, code)], acc2.2) else (acc2.1, acc2.2 + 1))
        acc
    else acc) ([], 0)

/-- Step 7: symmetric to step 6, except the final skip count adds the
loop counter instead of overwriting it. -/
def seedCenterOfferings (registry : List ExtractedCenter) (db : DB) :
    DB × Nat × Nat :=
  let ecKeys := db.ecs.map (fun e => e.1)
  let centerKeys := db.centers.map (fun e => e.1)
  let collected := collectOfferingPairs registry centerKeys ecKeys
  let inserted := createManySkipDup db.offerings collected.1
  ({ db with offerings := inserted.1 }, inserted.2,
   collected.1.length - inserted.2 + collected.2)

/-! ## Sync ledger -/

def createSyncJobRecord (stats : List (String × Nat)) (startTime endTime : Nat) : SyncJob :=
  let totalProcessed := (stats.map (fun e => e.2)).sum
  { jobType := "FULL_SYNC"
    status := "COMPLETED"
    startedAt := startTime
    completedAt := endTime
    itemsProcessed := totalProcessed
    itemsCreated := totalProcessed
    itemsUpdated := 0
    itemsSkipped := 0
    errors := [] }

/-! ## Loader and orchestration -/

inductive FileState (α : Type) where
  | missing : FileState α
  | unparsable : FileState α
  | parsed (v : α) : FileState α

/-- `loadJsonFile`: a missing file and a file that fails to parse both
yield `null` with a warning; only a parsed file yields data. -/
def loadJsonFile {α : Type} : FileState α → Option α
  | .parsed v => some v
  | _ => none

/-- The fixed set of expected input files (each modelled by its payload:
the matrix record of ec_ece_matrix.json, the registry arrays, the
ec_details record), plus whether the data directory exists at all. -/
structure Files where
  dirExists : Bool
  ecStandards : FileState (List ExtractedEC)
  eceMatrix : FileState (List (String × MatrixEntry))
  certifierRegistry : FileState (List ExtractedCertifier)
  centerRegistry : FileState (List ExtractedCenter)
  committees : FileState (List ExtractedCommittee)
  ecCertifiersAll : FileState (List (String × ECDetail))

inductive RunResult where
  | aborted (exitCode : Nat) : RunResult
  | completed : RunResult
deriving DecidableEq

structure RunOutcome where
  db : DB
  result : RunResult

/-- Steps 1-3 of `main` (sectors, then committees and standards, sharing
the in-run lookups): when the committee extract yielded no data, step 2
is skipped and the standards are seeded against an empty committee
lookup. Stats entries accumulate in report order. -/
def stageResolve (ecs : List ExtractedEC) (committeesOpt : Option (List ExtractedCommittee))
    (ecCertifiersAll : Option (List (String × ECDetail))) (now : Nat) (db : DB) :
    DB × List (String × Nat) :=
  let validCommittees := committeesOpt.getD []
  let s1 := seedSectors ecs now db
  if validCommittees.length > 0 then
    let s2 := seedCommittees validCommittees s1.2 now s1.1
    let s3 := seedECStandards ecs validCommittees ecCertifiersAll s1.2 s2.2 none now s2.1
    (s3.1, [("sectors", s1.2.length), ("committees", s2.2.length), ("ecStandards", s3.2.1)])
  else
    let s3 := seedECStandards ecs validCommittees ecCertifiersAll s1.2 [] none now s1.1
    (s3.1, [("sectors", s1.2.length), ("ecStandards", s3.2.1)])

/-- Step 4 of `main`: skipped entirely when the certifier registry yielded
no data. -/
def stageCertifiers (reg : Option (List ExtractedCertifier)) (now : Nat)
    (x : DB × List (String × Nat)) : DB × List (String × Nat) :=
  match reg with
  | some registry =>
    let s := seedCertifiers registry now x.1
    (s.1, x.2 ++ [("certifiers", s.2)])
  | none => x

/-- Step 5 of `main`. -/
def stageCenters (reg : Option (List ExtractedCenter)) (now : Nat)
    (x : DB × List (String × Nat)) : DB × List (String × Nat) :=
  match reg with
  | some registry =>
    let s := seedCenters registry now x.1
    (s.1, x.2 ++ [("centers", s.2)])
  | none => x

/-- Step 6 of `main`: the stats entry records the created count. -/
def stageAccreditations (matrixOpt : Option (List (String × MatrixEntry)))
    (x : DB × List (String × Nat)) : DB × List (String × Nat) :=
  match matrixOpt with
  | some m =>
    let s := seedAccreditations m x.1
    (s.1, x.2 ++ [("accreditations", s.2.1)])
  | none => x

/-- Step 7 of `main`: runs exactly when step 5 did (both read the center
registry). -/
def stageOfferings (reg : Option (List ExtractedCenter))
    (x : DB × List (String × Nat)) : DB × List (String × Nat) :=
  match reg with
  | some registry =>
    let s := seedCenterOfferings registry x.1
    (s.1, x.2 ++ [("centerOfferings", s.2.1)])
  | none => x

/-- `main` of seed-renec.ts: load the six files, hard-stop (non-zero exit,
no writes) when the data directory or the mandatory EC extract is missing
or empty, otherwise run the seven steps — each optional step skipped when
its file yielded no data — and append one ledger row. The module-level
reverse-index cache starts empty, as at any process start. -/
def runMain (files : Files) (startTime endTime : Nat) (db : DB) : RunOutcome :=
  if files.dirExists = false then ⟨db, RunResult.aborted 1⟩
  else
    match loadJsonFile files.ecStandards with
    | none => ⟨db, RunResult.aborted 1⟩
    | some [] => ⟨db, RunResult.aborted 1⟩
    | some (ec0 :: ecRest) =>
      let x :=
        stageOfferings (loadJsonFile files.centerRegistry)
          (stageAccreditations (loadJsonFile files.eceMatrix)
            (stageCenters (loadJsonFile files.centerRegistry) startTime
              (stageCertifiers (loadJsonFile files.certifierRegistry) startTime
                (stageResolve (ec0 :: ecRest) (loadJsonFile files.committees)
                  (loadJsonFile files.ecCertifiersAll) startTime db))))
      let job := createSyncJobRecord x.2 startTime endTime
      ⟨{ x.1 with syncJobs := x.1.syncJobs ++ [job] }, RunResult.completed⟩

/-! ## Coverage and integrity validator (validate-renec-data script)

The validator re-reads the store; its inputs here are the values those
queries return: the nine table counts, the list of persisted `ecClave`
values, and the six orphan-count queries. The human-readable `detail`
strings are presentation only and are not modelled. -/

inductive Status where
  | PASS : Status
  | WARN : Status
  | FAIL : Status
deriving DecidableEq

structure Check where
  check : String
  status : Status
deriving DecidableEq

structure StoreView where
  ecCount : Nat
  certCount : Nat
  centerCount : Nat
  accCount : Nat
  offeringCount : Nat
  sectorCount : Nat
  committeeCount : Nat
  occupationCount : Nat
  syncCount : Nat
  ecClaves : List String
  orphanedAcc : Nat
  orphanedOff : Nat
  orphanedEcCommittee : Nat
  orphanedEcSector : Nat
  orphanedCommSector : Nat
  orphanedOcc : Nat

/-- `actual >= expected * 0.9 ? PASS : actual > 0 ? WARN : FAIL`, scaled
to exact integers. At each of the nine fixed baselines the IEEE-double
product `expected * 0.9` either rounds exactly to the rational value
(306, 612, 1800 for the multiples of ten) or lies within 1e-12 of a
non-integer, so for every integer count the float comparison agrees with
`10 * actual ≥ 9 * expected`. -/
def countStatus (actual expected : Nat) : Status :=
  if 10 * actual ≥ 9 * expected then Status.PASS
  else if actual > 0 then Status.WARN
  else Status.FAIL

/-- The fixed expected baselines, paired with the store count each is
compared against, in report order. -/
def expectedCounts (v : StoreView) : List (String × Nat × Nat) :=
  [("RenecEC", v.ecCount, 1477),
   ("RenecCertifier", v.certCount, 482),
   ("RenecCenter", v.centerCount, 340),
   ("RenecAccreditation", v.accCount, 7573),
   ("RenecCenterOffering", v.offeringCount, 680),
   ("RenecSector", v.sectorCount, 22),
   ("RenecCommittee", v.committeeCount, 90),
   ("RenecECOccupation", v.occupationCount, 2000),
   ("RenecSyncJob", v.syncCount, 1)]

def countChecks (v : StoreView) : List Check :=
  (expectedCounts v).map (fun e => { check := e.1 ++ " count", status := countStatus e.2.1 e.2.2 })

/-- The EC code format regex of the validator, `^EC\d{4}(\.\d{2})?$`:
the literal characters E, C, four ASCII digits, optionally a dot and two
further digits. -/
def ecCodeMatches (s : String) : Bool :=
  match s.data with
  | 'E' :: 'C' :: d1 :: d2 :: d3 :: d4 :: rest =>
    d1.isDigit && d2.isDigit && d3.isDigit && d4.isDigit &&
    (match rest with
     | [] => true
     | '.' :: e1 :: [e2] => e1.isDigit && e2.isDigit
     | _ => false)
  | _ => false

def invalidCodes (claves : List String) : List String :=
  claves.filter (fun c => !(ecCodeMatches c))

/-- The format check result: PASS when every persisted code matches,
WARN otherwise — this check never fails the run. -/
def formatCheck (claves : List String) : Check :=
  if (invalidCodes claves).length = 0 then { check := "EC code format", status := Status.PASS }
  else { check := "EC code format", status := Status.WARN }

/-- The non-conforming codes the report prints, capped at ten. -/
def formatCheckListed (claves : List String) : List String :=
  if (invalidCodes claves).length = 0 then [] else (invalidCodes claves).take 10

def integrityCheck (label : String) (orphans : Nat) : Check :=
  { check := label, status := if orphans = 0 then Status.PASS else Status.FAIL }

def integrityChecks (v : StoreView) : List Check :=
  [integrityCheck "Accreditation referential integrity" v.orphanedAcc,
   integrityCheck "Center offering referential integrity" v.orphanedOff,
   integrityCheck "EC->Committee referential integrity" v.orphanedEcCommittee,
   integrityCheck "EC->Sector referential integrity" v.orphanedEcSector,
   integrityCheck "Committee->Sector referential integrity" v.orphanedCommSector,
   integrityCheck "ECOccupation->EC referential integrity" v.orphanedOcc]

/-- The `results` array in report order. -/
def validationResults (v : StoreView) : List Check :=
  countChecks v ++ [formatCheck v.ecClaves] ++ integrityChecks v

def failedCount (v : StoreView) : Nat :=
  ((validationResults v).filter (fun r => decide (r.status = Status.FAIL))).length

/-- `process.exit(1)` fires exactly when the FAIL tally is positive. -/
def validatorExitNonZero (v : StoreView) : Bool :=
  decide (failedCount v > 0)

/-- The format pattern the SPEC claims, transcribed from its words for
comparison with `ecCodeMatches`: two uppercase letters, four digits,
optionally a dot and two digits. -/
def specCodePatternMatches (s : String) : Bool :=
  match s.data with
  | c1 :: c2 :: d1 :: d2 :: d3 :: d4 :: rest =>
    c1.isUpper && c2.isUpper && d1.isDigit && d2.isDigit && d3.isDigit && d4.isDigit &&
    (match rest with
     | [] => true
     | '.' :: e1 :: [e2] => e1.isDigit && e2.isDigit
     | _ => false)
  | _ => false

/-! ## Association-list lemmas -/

lemma mapGet_jsMapSet {κ ρ : Type} [DecidableEq κ] (m : List (κ × ρ)) (k : κ) (v : ρ)
    (a : κ) : mapGet (jsMapSet m k v) a = if a = k then some v else mapGet m a := by
  induction m with
  | nil => simp [jsMapSet, mapGet]
  | cons hd tl ih =>
    obtain ⟨k0, v0⟩ := hd
    simp only [jsMapSet]
    by_cases hk : k = k0
    · subst hk
      rw [if_pos rfl]
      by_cases ha : a = k <;> simp [mapGet, ha]
    · rw [if_neg hk]
      by_cases ha : a = k0
      · subst ha
        rw [mapGet, if_pos rfl, mapGet, if_pos rfl, if_neg (fun h => hk (h.symm))]
      · simp [mapGet, ha, ih]

lemma optOr_assoc (x y z : Option α) : Option.or (Option.or x y) z = Option.or x (Option.or y z) := by
  cases x <;> simp [Option.or]

lemma mapGet_foldl_or {β : Type} (f : List (String × String) → β → List (String × String))
    (hf : ∀ m b a, mapGet (f m b) a = Option.or (mapGet (f [] b) a) (mapGet m a)) :
    ∀ (l : List β) (m : List (String × String)) (a : String),
      mapGet (l.foldl f m) a = Option.or (mapGet (l.foldl f []) a) (mapGet m a) := by
  intro l
  induction l with
  | nil => intro m a; simp [mapGet, Option.or]
  | cons b l ih =>
    intro m a
    have h1 : (b :: l).foldl f m = l.foldl f (f m b) := rfl
    have h2 : (b :: l).foldl f [] = l.foldl f (f [] b) := rfl
    rw [h1, h2, ih (f m b) a, ih (f [] b) a, hf m b a, optOr_assoc]

lemma hf_indexInsertEA (clave : String) :
    ∀ (m : List (String × String)) (ea : EstandarAsociado) (a : String),
      mapGet (indexInsertEA m clave ea) a =
        Option.or (mapGet (indexInsertEA [] clave ea) a) (mapGet m a) := by
  intro m ea a
  unfold indexInsertEA
  by_cases hc : ea.codigo ≠ ""
  · rw [if_pos hc, if_pos hc, mapGet_jsMapSet, mapGet_jsMapSet]
    by_cases ha : a = ea.codigo <;> simp [ha, mapGet, Option.or]
  · rw [if_neg hc, if_neg hc]
    simp [mapGet, Option.or]

lemma hf_indexInsertCommittee :
    ∀ (m : List (String × String)) (c : ExtractedCommittee) (a : String),
      mapGet (indexInsertCommittee m c) a =
        Option.or (mapGet (indexInsertCommittee [] c) a) (mapGet m a) := by
  intro m c a
  unfold indexInsertCommittee
  exact mapGet_foldl_or (fun acc ea => indexInsertEA acc c.clave ea)
    (fun m' ea' a' => hf_indexInsertEA c.clave m' ea' a') c.estandaresAsociados m a

lemma buildIndex_append (l1 l2 : List ExtractedCommittee) (a : String) :
    mapGet (buildIndex (l1 ++ l2)) a =
      Option.or (mapGet (buildIndex l2) a) (mapGet (buildIndex l1) a) := by
  unfold buildIndex
  rw [List.foldl_append]
  exact mapGet_foldl_or indexInsertCommittee hf_indexInsertCommittee l2 _ a

lemma mapGet_easFold_noclaim (clave code : String) (eas : List EstandarAsociado)
    (h : ∀ ea ∈ eas, ¬(ea.codigo = code ∧ code ≠ "")) :
    ∀ m, mapGet (eas.foldl (fun acc ea => indexInsertEA acc clave ea) m) code = mapGet m code := by
  induction eas with
  | nil => intro m; rfl
  | cons ea eas ih =>
    intro m
    have hea := h ea (by simp)
    have hrest : ∀ ea' ∈ eas, ¬(ea'.codigo = code ∧ code ≠ "") :=
      fun ea' hm => h ea' (by simp [hm])
    have hstep : mapGet (indexInsertEA m clave ea) code = mapGet m code := by
      unfold indexInsertEA
      by_cases hc : ea.codigo = ""
      · simp [hc]
      · rw [if_pos hc, mapGet_jsMapSet]
        by_cases hcode : code = ea.codigo
        · exact absurd ⟨hcode.symm, fun he => hc (hcode ▸ he)⟩ hea
        · simp [hcode]
    have hfold : (ea :: eas).foldl (fun acc x => indexInsertEA acc clave x) m =
        eas.foldl (fun acc x => indexInsertEA acc clave x) (indexInsertEA m clave ea) := rfl
    rw [hfold, ih hrest _, hstep]

lemma mapGet_easFold_claim (clave code : String) (eas : List EstandarAsociado)
    (h : ∃ ea ∈ eas, ea.codigo = code ∧ code ≠ "") :
    ∀ m, mapGet (eas.foldl (fun acc ea => indexInsertEA acc clave ea) m) code = some clave := by
  induction eas with
  | nil => exact absurd h (by simp)
  | cons ea eas ih =>
    intro m
    have hfold : (ea :: eas).foldl (fun acc x => indexInsertEA acc clave x) m =
        eas.foldl (fun acc x => indexInsertEA acc clave x) (indexInsertEA m clave ea) := rfl
    by_cases htail : ∃ ea' ∈ eas, ea'.codigo = code ∧ code ≠ ""
    · rw [hfold]; exact ih htail _
    · obtain ⟨ea0, hmem, hcode, hne⟩ := h
      have hea0 : ea0 = ea := by
        rcases List.mem_cons.mp hmem with h' | h'
        · exact h'
        · exact absurd ⟨ea0, h', hcode, hne⟩ htail
      subst hea0
      have hnc : ∀ ea' ∈ eas, ¬(ea'.codigo = code ∧ code ≠ "") := by
        intro ea' hm hclaim
        exact htail ⟨ea', hm, hclaim⟩
      rw [hfold, mapGet_easFold_noclaim clave code eas hnc]
      unfold indexInsertEA
      rw [if_pos (hcode.symm ▸ hne), mapGet_jsMapSet, if_pos hcode.symm]

lemma mapGet_indexInsertCommittee_claim (c : ExtractedCommittee) (code : String)
    (h : ∃ ea ∈ c.estandaresAsociados, ea.codigo = code ∧ code ≠ "") (m : List (String × String)) :
    mapGet (indexInsertCommittee m c) code = some c.clave :=
  mapGet_easFold_claim c.clave code c.estandaresAsociados h m

lemma formatCheck_status_ne_fail (claves : List String) :
    (formatCheck claves).status ≠ Status.FAIL := by
  unfold formatCheck
  split <;> simp

/-! ## Key-set lemmas for upserts and duplicate-skipping inserts -/

lemma map_fst_jsMapSet {κ ρ : Type} [DecidableEq κ] (m : List (κ × ρ)) (k : κ) (v : ρ) :
    (jsMapSet m k v).map Prod.fst =
      if k ∈ m.map Prod.fst then m.map Prod.fst else m.map Prod.fst ++ [k] := by
  induction m with
  | nil => simp [jsMapSet]
  | cons hd tl ih =>
    obtain ⟨k0, v0⟩ := hd
    by_cases hk : k = k0
    · subst hk
      simp [jsMapSet]
    · simp only [jsMapSet, if_neg hk, List.map_cons, ih]
      by_cases hmem : k ∈ tl.map Prod.fst <;> simp [hmem, hk]

lemma mem_map_fst_upsertMany {κ ρ : Type} [DecidableEq κ] (rows es : List (κ × ρ)) (a : κ) :
    a ∈ (upsertMany rows es).map Prod.fst ↔
      a ∈ rows.map Prod.fst ∨ a ∈ es.map Prod.fst := by
  induction es generalizing rows with
  | nil => simp [upsertMany]
  | cons e es ih =>
    have hstep : upsertMany rows (e :: es) = upsertMany (jsMapSet rows e.1 e.2) es := rfl
    rw [hstep, ih, map_fst_jsMapSet]
    by_cases hmem : e.1 ∈ rows.map Prod.fst
    · simp only [if_pos hmem, List.map_cons, List.mem_cons]
      constructor
      · rintro (h | h)
        · exact Or.inl h
        · exact Or.inr (Or.inr h)
      · rintro (h | h | h)
        · exact Or.inl h
        · exact Or.inl (h ▸ hmem)
        · exact Or.inr h
    · simp only [if_neg hmem, List.mem_append, List.mem_singleton, List.map_cons, List.mem_cons]
      tauto

lemma map_fst_upsertMany_of_subset {κ ρ : Type} [DecidableEq κ] (rows es : List (κ × ρ))
    (h : ∀ a ∈ es.map Prod.fst, a ∈ rows.map Prod.fst) :
    (upsertMany rows es).map Prod.fst = rows.map Prod.fst := by
  induction es generalizing rows with
  | nil => rfl
  | cons e es ih =>
    have hstep : upsertMany rows (e :: es) = upsertMany (jsMapSet rows e.1 e.2) es := rfl
    have hmem : e.1 ∈ rows.map Prod.fst := h e.1 (by simp)
    have hkeys : (jsMapSet rows e.1 e.2).map Prod.fst = rows.map Prod.fst := by
      rw [map_fst_jsMapSet, if_pos hmem]
    rw [hstep, ih (jsMapSet rows e.1 e.2) (fun a ha => hkeys ▸ h a (by simp [ha]))]
    exact hkeys

lemma createManySkipDup_foldl_mem {π : Type} [DecidableEq π] (data : List π) :
    ∀ (rows : List π) (n : Nat) (q : π),
      (q ∈ (data.foldl
        (fun acc p => if p ∈ acc.1 then acc else (acc.1 ++ [p], acc.2 + 1)) (rows, n)).1 ↔
       q ∈ rows ∨ q ∈ data) := by
  induction data with
  | nil => intro rows n q; simp
  | cons p data ih =>
    intro rows n q
    by_cases hp : p ∈ rows
    · have hstep : (p :: data).foldl
          (fun acc p => if p ∈ acc.1 then acc else (acc.1 ++ [p], acc.2 + 1)) (rows, n) =
          data.foldl (fun acc p => if p ∈ acc.1 then acc else (acc.1 ++ [p], acc.2 + 1)) (rows, n) := by
        simp [hp]
      rw [hstep, ih]
      constructor
      · rintro (h | h)
        · exact Or.inl h
        · exact Or.inr (by simp [h])
      · rintro (h | h)
        · exact Or.inl h
        · rcases List.mem_cons.mp h with h' | h'
          · exact Or.inl (h' ▸ hp)
          · exact Or.inr h'
    · have hstep : (p :: data).foldl
          (fun acc p => if p ∈ acc.1 then acc else (acc.1 ++ [p], acc.2 + 1)) (rows, n) =
          data.foldl (fun acc p => if p ∈ acc.1 then acc else (acc.1 ++ [p], acc.2 + 1))
            (rows ++ [p], n + 1) := by
        simp [hp]
      rw [hstep, ih]
      simp only [List.mem_append, List.mem_singleton, List.mem_cons]
      tauto

lemma mem_createManySkipDup {π : Type} [DecidableEq π] (rows data : List π) (q : π) :
    q ∈ (createManySkipDup rows data).1 ↔ q ∈ rows ∨ q ∈ data :=
  createManySkipDup_foldl_mem data rows 0 q

lemma createManySkipDup_of_subset {π : Type} [DecidableEq π] (rows data : List π)
    (h : ∀ p ∈ data, p ∈ rows) : createManySkipDup rows data = (rows, 0) := by
  unfold createManySkipDup
  induction data with
  | nil => rfl
  | cons p data ih =>
    have hp : p ∈ rows := h p (by simp)
    have hstep : (p :: data).foldl
        (fun acc p => if p ∈ acc.1 then acc else (acc.1 ++ [p], acc.2 + 1)) (rows, 0) =
        data.foldl (fun acc p => if p ∈ acc.1 then acc else (acc.1 ++ [p], acc.2 + 1)) (rows, 0) := by
      simp [hp]
    rw [hstep]
    exact ih (fun p' hp' => h p' (by simp [hp']))

/-! ## Stage characterization lemmas

`sectorKeysFor`, `committeeKeysFor` and `ecEntriesFor` name the lookup
keys and upsert entries steps 1-3 effectively use within one run. -/

def sectorKeysFor (ecs : List ExtractedEC) : List Int :=
  (sectorNameMap ecs).map (fun e => e.1)

def committeeKeysFor (co : Option (List ExtractedCommittee)) : List String :=
  if (co.getD []).length > 0 then dedupKeys ((co.getD []).map (fun c => c.clave)) else []

def ecEntriesFor (ecs : List ExtractedEC) (co : Option (List ExtractedCommittee))
    (ed : Option (List (String × ECDetail))) (now : Nat) : List (String × ECRow) :=
  ecEntries ecs (co.getD []) ed (sectorKeysFor ecs) (committeeKeysFor co)
    (buildIndex (co.getD [])) now

lemma stageResolve_sectors (ecs : List ExtractedEC) (co : Option (List ExtractedCommittee))
    (ed : Option (List (String × ECDetail))) (now : Nat) (db : DB) :
    (stageResolve ecs co ed now db).1.sectors = upsertMany db.sectors (sectorEntries ecs now) := by
  unfold stageResolve seedSectors seedCommittees seedECStandards
  by_cases h : (co.getD []).length > 0 <;> cases ed <;> simp [h]

lemma stageResolve_committees (ecs : List ExtractedEC) (co : Option (List ExtractedCommittee))
    (ed : Option (List (String × ECDetail))) (now : Nat) (db : DB) :
    (stageResolve ecs co ed now db).1.committees =
      if (co.getD []).length > 0 then
        upsertMany db.committees (committeeEntries (co.getD []) (sectorKeysFor ecs) now)
      else db.committees := by
  unfold stageResolve seedSectors seedCommittees seedECStandards
  by_cases h : (co.getD []).length > 0 <;> cases ed <;> simp [h, sectorKeysFor]

lemma stageResolve_ecs (ecs : List ExtractedEC) (co : Option (List ExtractedCommittee))
    (ed : Option (List (String × ECDetail))) (now : Nat) (db : DB) :
    (stageResolve ecs co ed now db).1.ecs = upsertMany db.ecs (ecEntriesFor ecs co ed now) := by
  unfold stageResolve seedSectors seedCommittees seedECStandards
  by_cases h : (co.getD []).length > 0 <;> cases ed <;>
    simp [h, ecEntriesFor, sectorKeysFor, committeeKeysFor, buildEcToCommitteeKeyIndex]

lemma stageResolve_occupations_none (ecs : List ExtractedEC)
    (co : Option (List ExtractedCommittee)) (now : Nat) (db : DB) :
    (stageResolve ecs co none now db).1.occupations = db.occupations := by
  unfold stageResolve seedSectors seedCommittees seedECStandards
  by_cases h : (co.getD []).length > 0 <;> simp [h]

lemma stageResolve_occupations_some (ecs : List ExtractedEC)
    (co : Option (List ExtractedCommittee)) (ds : List (String × ECDetail)) (now : Nat) (db : DB) :
    (stageResolve ecs co (some ds) now db).1.occupations =
      (createManySkipDup db.occupations
        (occupationPairs ds (dedupKeys ((ecEntriesFor ecs co (some ds) now).map (fun e => e.1))))).1 := by
  unfold stageResolve seedSectors seedCommittees seedECStandards
  by_cases h : (co.getD []).length > 0 <;>
    simp [h, ecEntriesFor, sectorKeysFor, committeeKeysFor, buildEcToCommitteeKeyIndex]

lemma stageResolve_untouched (ecs : List ExtractedEC) (co : Option (List ExtractedCommittee))
    (ed : Option (List (String × ECDetail))) (now : Nat) (db : DB) :
    (stageResolve ecs co ed now db).1.certifiers = db.certifiers ∧
    (stageResolve ecs co ed now db).1.centers = db.centers ∧
    (stageResolve ecs co ed now db).1.accreditations = db.accreditations ∧
    (stageResolve ecs co ed now db).1.offerings = db.offerings ∧
    (stageResolve ecs co ed now db).1.syncJobs = db.syncJobs := by
  unfold stageResolve seedSectors seedCommittees seedECStandards
  by_cases h : (co.getD []).length > 0 <;> cases ed <;> simp [h]

lemma stageResolve_stats (ecs : List ExtractedEC) (co : Option (List ExtractedCommittee))
    (ed : Option (List (String × ECDetail))) (now : Nat) (db : DB) :
    (stageResolve ecs co ed now db).2 =
      if (co.getD []).length > 0 then
        [("sectors", (sectorKeysFor ecs).length),
         ("committees", (dedupKeys ((co.getD []).map (fun c => c.clave))).length),
         ("ecStandards", ecs.length)]
      else
        [("sectors", (sectorKeysFor ecs).length), ("ecStandards", ecs.length)] := by
  unfold stageResolve seedSectors seedCommittees seedECStandards
  by_cases h : (co.getD []).length > 0 <;> cases ed <;> simp [h, sectorKeysFor]

lemma stageCertifiers_frame (o : Option (List ExtractedCertifier)) (now : Nat)
    (x : DB × List (String × Nat)) :
    (stageCertifiers o now x).1.sectors = x.1.sectors ∧
    (stageCertifiers o now x).1.committees = x.1.committees ∧
    (stageCertifiers o now x).1.ecs = x.1.ecs ∧
    (stageCertifiers o now x).1.occupations = x.1.occupations ∧
    (stageCertifiers o now x).1.centers = x.1.centers ∧
    (stageCertifiers o now x).1.accreditations = x.1.accreditations ∧
    (stageCertifiers o now x).1.offerings = x.1.offerings ∧
    (stageCertifiers o now x).1.syncJobs = x.1.syncJobs := by
  cases o <;> simp [stageCertifiers, seedCertifiers]

lemma stageCertifiers_certifiers_some (reg : List ExtractedCertifier) (now : Nat)
    (x : DB × List (String × Nat)) :
    (stageCertifiers (some reg) now x).1.certifiers =
      upsertMany x.1.certifiers (reg.map (fun c => (c.id, certifierRowOf now c))) := by
  simp [stageCertifiers, seedCertifiers]

lemma stageCenters_frame (o : Option (List ExtractedCenter)) (now : Nat)
    (x : DB × List (String × Nat)) :
    (stageCenters o now x).1.sectors = x.1.sectors ∧
    (stageCenters o now x).1.committees = x.1.committees ∧
    (stageCenters o now x).1.ecs = x.1.ecs ∧
    (stageCenters o now x).1.occupations = x.1.occupations ∧
    (stageCenters o now x).1.certifiers = x.1.certifiers ∧
    (stageCenters o now x).1.accreditations = x.1.accreditations ∧
    (stageCenters o now x).1.offerings = x.1.offerings ∧
    (stageCenters o now x).1.syncJobs = x.1.syncJobs := by
  cases o <;> simp [stageCenters, seedCenters]

lemma stageCenters_centers_some (reg : List ExtractedCenter) (now : Nat)
    (x : DB × List (String × Nat)) :
    (stageCenters (some reg) now x).1.centers =
      upsertMany x.1.centers (reg.map (fun c => (c.id, centerRowOf now c))) := by
  simp [stageCenters, seedCenters]

lemma stageAccreditations_frame (o : Option (List (String × MatrixEntry)))
    (x : DB × List (String × Nat)) :
    (stageAccreditations o x).1.sectors = x.1.sectors ∧
    (stageAccreditations o x).1.committees = x.1.committees ∧
    (stageAccreditations o x).1.ecs = x.1.ecs ∧
    (stageAccreditations o x).1.occupations = x.1.occupations ∧
    (stageAccreditations o x).1.certifiers = x.1.certifiers ∧
    (stageAccreditations o x).1.centers = x.1.centers ∧
    (stageAccreditations o x).1.offerings = x.1.offerings ∧
    (stageAccreditations o x).1.syncJobs = x.1.syncJobs := by
  cases o <;> simp [stageAccreditations, seedAccreditations]

lemma stageAccreditations_accs_some (m : List (String × MatrixEntry))
    (x : DB × List (String × Nat)) :
    (stageAccreditations (some m) x).1.accreditations =
      (createManySkipDup x.1.accreditations
        (collectAccPairs m (x.1.ecs.map (fun e => e.1)) (x.1.certifiers.map (fun e => e.1))).1).1 := by
  simp [stageAccreditations, seedAccreditations]

lemma stageOfferings_frame (o : Option (List ExtractedCenter))
    (x : DB × List (String × Nat)) :
    (stageOfferings o x).1.sectors = x.1.sectors ∧
    (stageOfferings o x).1.committees = x.1.committees ∧
    (stageOfferings o x).1.ecs = x.1.ecs ∧
    (stageOfferings o x).1.occupations = x.1.occupations ∧
    (stageOfferings o x).1.certifiers = x.1.certifiers ∧
    (stageOfferings o x).1.centers = x.1.centers ∧
    (stageOfferings o x).1.accreditations = x.1.accreditations ∧
    (stageOfferings o x).1.syncJobs = x.1.syncJobs := by
  cases o <;> simp [stageOfferings, seedCenterOfferings]

lemma stageOfferings_offs_some (reg : List ExtractedCenter)
    (x : DB × List (String × Nat)) :
    (stageOfferings (some reg) x).1.offerings =
      (createManySkipDup x.1.offerings
        (collectOfferingPairs reg (x.1.centers.map (fun e => e.1)) (x.1.ecs.map (fun e => e.1))).1).1 := by
  simp [stageOfferings, seedCenterOfferings]

/-! ## Claim theorems -/

/-- C10: `buildEcToCommitteeKeyIndex` caches its result at module level:
once a first call has populated the cache from a committee list `c1`, a
second call returns the map built from `c1` and ignores its own argument
`c2` entirely. Moreover the index construction lets later committees in
source order overwrite earlier claimants of the same standard code: a
lookup in the index of `l1 ++ l2` prefers the binding contributed by
`l2`, and in particular a committee appended last that claims a code owns
that code in the final map. -/
theorem buildEcToCommitteeKeyIndex_cache_and_last_claim_wins :
    ∀ (c1 c2 l1 l2 pre : List ExtractedCommittee) (c : ExtractedCommittee) (code : String),
    ((buildEcToCommitteeKeyIndex ((buildEcToCommitteeKeyIndex none c1).2) c2).1 = buildIndex c1) ∧
    (mapGet (buildIndex (l1 ++ l2)) code =
      Option.or (mapGet (buildIndex l2) code) (mapGet (buildIndex l1) code)) ∧
    ((∃ ea ∈ c.estandaresAsociados, ea.codigo = code ∧ code ≠ "") →
      mapGet (buildIndex (pre ++ [c])) code = some c.clave) := by
  intro c1 c2 l1 l2 pre c code
  refine ⟨rfl, buildIndex_append l1 l2 code, fun h => ?_⟩
  rw [buildIndex_append pre [c] code]
  have hone : mapGet (buildIndex [c]) code = some c.clave := by
    show mapGet (indexInsertCommittee [] c) code = some c.clave
    exact mapGet_indexInsertCommittee_claim c code h []
  rw [hone]
  rfl

/-- Witness for C10: on two concrete one-committee lists the second call
returns the first list's map, and with two committees claiming the same
code the later committee owns it. -/
theorem buildEcToCommitteeKeyIndex_cache_witness :
    mapGet (buildIndex
      ([{ clave := "CA", nombre := "", presidente := none, vicepresidente := none,
          calleNumero := none, colonia := none, codigoPostal := none, localidad := none,
          telefonos := none, correo := none, url := none, idSectorProductivo := none,
          sectorProductivoStr := none, puestoPresidente := none, puestoVicepresidente := none,
          fechaIntegracion := none, idTipoComite := none, contacto := none,
          delegacionStr := none, entidadStr := none,
          estandaresAsociados := [{ codigo := "EC0001", titulo := "" }], id := 1 }] ++
       [{ clave := "CB", nombre := "", presidente := none, vicepresidente := none,
          calleNumero := none, colonia := none, codigoPostal := none, localidad := none,
          telefonos := none, correo := none, url := none, idSectorProductivo := none,
          sectorProductivoStr := none, puestoPresidente := none, puestoVicepresidente := none,
          fechaIntegracion := none, idTipoComite := none, contacto := none,
          delegacionStr := none, entidadStr := none,
          estandaresAsociados := [{ codigo := "EC0001", titulo := "" }], id := 2 }]))
      "EC0001" = some "CB" := by
  have h := buildEcToCommitteeKeyIndex_cache_and_last_claim_wins [] [] [] []
    [{ clave := "CA", nombre := "", presidente := none, vicepresidente := none,
       calleNumero := none, colonia := none, codigoPostal := none, localidad := none,
       telefonos := none, correo := none, url := none, idSectorProductivo := none,
       sectorProductivoStr := none, puestoPresidente := none, puestoVicepresidente := none,
       fechaIntegracion := none, idTipoComite := none, contacto := none,
       delegacionStr := none, entidadStr := none,
       estandaresAsociados := [{ codigo := "EC0001", titulo := "" }], id := 1 }]
    { clave := "CB", nombre := "", presidente := none, vicepresidente := none,
      calleNumero := none, colonia := none, codigoPostal := none, localidad := none,
      telefonos := none, correo := none, url := none, idSectorProductivo := none,
      sectorProductivoStr := none, puestoPresidente := none, puestoVicepresidente := none,
      fechaIntegracion := none, idTipoComite := none, contacto := none,
      delegacionStr := none, entidadStr := none,
      estandaresAsociados := [{ codigo := "EC0001", titulo := "" }], id := 2 }
    "EC0001"
  exact h.2.2 ⟨{ codigo := "EC0001", titulo := "" }, by decide, by decide, by decide⟩

/-- C7: the certifier entity-type classifier is a total function from the
raw free-text type string into the closed two-value enum {ECE, OC}: it
returns OC exactly when the uppercased input contains one of the
governmental/organizational keywords, and ECE for every other input,
including the empty string and unrecognized values. -/
theorem resolveCertifierTipo_keyword_rule :
    ∀ s : String,
    (resolveCertifierTipo s = Tipo.OC ↔
      (strIncludes (jsToUpper s) "OC" || strIncludes (jsToUpper s) "GOBIERNO") = true) ∧
    (resolveCertifierTipo s = Tipo.ECE ↔
      (strIncludes (jsToUpper s) "OC" || strIncludes (jsToUpper s) "GOBIERNO") = false) ∧
    resolveCertifierTipo "" = Tipo.ECE ∧
    resolveCertifierTipo "gobierno municipal" = Tipo.OC ∧
    resolveCertifierTipo "Unknown" = Tipo.ECE ∧
    resolveCertifierTipo "SA de CV" = Tipo.ECE := by
  intro s
  refine ⟨?_, ?_, by decide, by decide, by decide, by decide⟩ <;>
    (unfold resolveCertifierTipo
     cases h : (strIncludes (jsToUpper s) "OC" || strIncludes (jsToUpper s) "GOBIERNO") <;>
       simp [h])

/-- C1 (amended): the Validator's format check tests every persisted
standard natural key against the literal pattern EC + four digits,
optionally a dot and two digits (regex ^EC\d{4}(\.\d{2})?\x24); any
non-conforming key is listed up to a display cap of ten; the check's
status is WARN (never FAIL) when a non-conforming key exists and PASS
when none exists. -/
theorem formatCheck_ec_pattern_warn_only :
    ∀ claves : List String,
    ((formatCheck claves).status = Status.WARN ↔ invalidCodes claves ≠ []) ∧
    ((formatCheck claves).status = Status.PASS ↔ invalidCodes claves = []) ∧
    (formatCheck claves).status ≠ Status.FAIL ∧
    formatCheckListed claves = (invalidCodes claves).take 10 ∧
    invalidCodes claves = claves.filter (fun c => !(ecCodeMatches c)) := by
  intro claves
  by_cases h : (invalidCodes claves).length = 0
  · have he : invalidCodes claves = [] := List.length_eq_zero.mp h
    refine ⟨?_, ?_, formatCheck_status_ne_fail claves, ?_, rfl⟩ <;>
      simp [formatCheck, formatCheckListed, h, he]
  · have hne : invalidCodes claves ≠ [] := fun he => h (by rw [he]; rfl)
    refine ⟨?_, ?_, formatCheck_status_ne_fail claves, ?_, rfl⟩ <;>
      simp [formatCheck, formatCheckListed, h, hne]

/-- C1 counterexample: the key AB1234 conforms to the two-uppercase-letter
pattern the claim states, yet the code flags it: a store whose only key
is AB1234 gets WARN, not PASS, so the checked pattern is the literal EC
prefix, not an arbitrary uppercase pair. -/
theorem formatCheck_spec_pattern_cex :
    specCodePatternMatches "AB1234" = true ∧
    ecCodeMatches "AB1234" = false ∧
    (formatCheck ["AB1234"]).status = Status.WARN ∧
    ¬((formatCheck ["AB1234"]).status = Status.PASS) := by decide

/-- C4: for each entity type the count check is PASS exactly when the
actual count reaches 90 percent of the fixed baseline, WARN exactly when
it is positive but below the threshold, FAIL exactly when it is zero
(every baseline is positive); and the validator process exits non-zero
exactly when some count or integrity check FAILed — the format check can
never contribute a FAIL. -/
theorem countStatus_thresholds_and_exit_gate :
    ∀ (a e : Nat) (v : StoreView), 0 < e →
    ((countStatus a e = Status.PASS ↔ 10 * a ≥ 9 * e) ∧
     (countStatus a e = Status.WARN ↔ (0 < a ∧ 10 * a < 9 * e)) ∧
     (countStatus a e = Status.FAIL ↔ a = 0)) ∧
    (validatorExitNonZero v = true ↔
      ∃ c, c ∈ countChecks v ++ integrityChecks v ∧ c.status = Status.FAIL) := by
  intro a e v he
  constructor
  · unfold countStatus
    by_cases h1 : 10 * a ≥ 9 * e
    · rw [if_pos h1]
      refine ⟨by simp [h1], ?_, ?_⟩ <;> (constructor; · intro h; exact absurd h (by simp)
                                         · intro h; omega)
    · by_cases h2 : 0 < a
      · rw [if_neg h1, if_pos h2]
        refine ⟨?_, by simp; omega, ?_⟩ <;> (constructor; · intro h; exact absurd h (by simp)
                                             · intro h; omega)
      · rw [if_neg h1, if_neg h2]
        refine ⟨?_, ?_, by simp; omega⟩ <;> (constructor; · intro h; exact absurd h (by simp)
                                             · intro h; omega)
  · simp only [validatorExitNonZero, decide_eq_true_eq]
    unfold failedCount
    constructor
    · intro hpos
      have hne : (validationResults v).filter (fun r => decide (r.status = Status.FAIL)) ≠ [] := by
        intro hnil
        rw [hnil] at hpos
        exact Nat.lt_irrefl 0 hpos
      obtain ⟨c, hc⟩ := List.exists_mem_of_ne_nil _ hne
      have hmem := List.mem_filter.mp hc
      have hfail : c.status = Status.FAIL := of_decide_eq_true hmem.2
      have hsplit := List.mem_append.mp hmem.1
      rcases hsplit with hleft | hright
      · rcases List.mem_append.mp hleft with hcount | hfmt
        · exact ⟨c, List.mem_append.mpr (Or.inl hcount), hfail⟩
        · have : c = formatCheck v.ecClaves := List.mem_singleton.mp hfmt
          exact absurd (this ▸ hfail) (formatCheck_status_ne_fail v.ecClaves)
      · exact ⟨c, List.mem_append.mpr (Or.inr hright), hfail⟩
    · intro h
      obtain ⟨c, hmem, hfail⟩ := h
      have hval : c ∈ validationResults v := by
        unfold validationResults
        rcases List.mem_append.mp hmem with hcount | hint
        · exact List.mem_append.mpr (Or.inl (List.mem_append.mpr (Or.inl hcount)))
        · exact List.mem_append.mpr (Or.inr hint)
      have hfil : c ∈ (validationResults v).filter (fun r => decide (r.status = Status.FAIL)) :=
        List.mem_filter.mpr ⟨hval, decide_eq_true hfail⟩
      exact List.length_pos_of_mem hfil

/-- Witness for C4: at the RenecEC baseline 1477, a count of 1477 is
PASS, a count of 1 is WARN, a count of 0 is FAIL; a store view whose only
orphan count is positive exits non-zero via that integrity FAIL. -/
theorem countStatus_thresholds_witness :
    (0 : Nat) < 1477 ∧
    countStatus 1477 1477 = Status.PASS ∧
    countStatus 1 1477 = Status.WARN ∧
    countStatus 0 1477 = Status.FAIL ∧
    validatorExitNonZero
      { ecCount := 1477, certCount := 482, centerCount := 340, accCount := 7573,
        offeringCount := 680, sectorCount := 22, committeeCount := 90,
        occupationCount := 2000, syncCount := 1, ecClaves := [],
        orphanedAcc := 1, orphanedOff := 0, orphanedEcCommittee := 0,
        orphanedEcSector := 0, orphanedCommSector := 0, orphanedOcc := 0 } = true := by
  have h1477 := countStatus_thresholds_and_exit_gate 1477 1477
    { ecCount := 1477, certCount := 482, centerCount := 340, accCount := 7573,
      offeringCount := 680, sectorCount := 22, committeeCount := 90,
      occupationCount := 2000, syncCount := 1, ecClaves := [],
      orphanedAcc := 1, orphanedOff := 0, orphanedEcCommittee := 0,
      orphanedEcSector := 0, orphanedCommSector := 0, orphanedOcc := 0 } (by decide)
  have h1 := countStatus_thresholds_and_exit_gate 1 1477
    { ecCount := 1477, certCount := 482, centerCount := 340, accCount := 7573,
      offeringCount := 680, sectorCount := 22, committeeCount := 90,
      occupationCount := 2000, syncCount := 1, ecClaves := [],
      orphanedAcc := 1, orphanedOff := 0, orphanedEcCommittee := 0,
      orphanedEcSector := 0, orphanedCommSector := 0, orphanedOcc := 0 } (by decide)
  have h0 := countStatus_thresholds_and_exit_gate 0 1477
    { ecCount := 1477, certCount := 482, centerCount := 340, accCount := 7573,
      offeringCount := 680, sectorCount := 22, committeeCount := 90,
      occupationCount := 2000, syncCount := 1, ecClaves := [],
      orphanedAcc := 1, orphanedOff := 0, orphanedEcCommittee := 0,
      orphanedEcSector := 0, orphanedCommSector := 0, orphanedOcc := 0 } (by decide)
  refine ⟨by decide, h1477.1.1.mpr (by decide), h1.1.2.1.mpr (by decide),
          h0.1.2.2.mpr rfl, ?_⟩
  refine h1477.2.mpr ⟨integrityCheck "Accreditation referential integrity" 1, ?_, by decide⟩
  decide

/-- The concrete store and matrix extract refuting the accreditation
skip accounting: the store holds the standard EC0249 and no certifiers,
the matrix holds one pair for EC0249 whose certifier is unknown. -/
def sampleECRow : ECRow :=
  { titulo := "", version := "01", vigente := true, sector := none,
    nivelCompetencia := none, proposito := none, committeeId := none, sectorId := none,
    competencias := Json.nullJ, elementosJson := [], critDesempeno := [],
    critConocimiento := [], critProducto := [], sourceUrl := "", contentHash := "",
    lastSyncedAt := 0 }

def bugMatrix : List (String × MatrixEntry) :=
  [("EC0249", { ece_ids := ["ECE-99999"], ece_count := 1, title := "" })]

def bugDB : DB := { emptyDB with ecs := [("EC0249", sampleECRow)] }

/-- C2: the accreditation pass attempts one matrix pair whose certifier
side is unresolved, yet reports created = 0 and skipped = 0 — the
collection loop's unresolved counter is discarded by the final
`skipped = pairs.length - created` reassignment (pairs over an
unresolved standard are not counted at all), so
attempted = inserted + skipped fails whenever a side is unresolved. The
sibling offering pass accumulates the counter instead, which marks the
overwrite as a slip. -/
theorem seedAccreditations_skip_accounting_bug :
    accreditationPairsAttempted bugMatrix = 1 ∧
    (collectAccPairs bugMatrix (bugDB.ecs.map (fun e => e.1))
      (bugDB.certifiers.map (fun e => e.1))).2 = 1 ∧
    (seedAccreditations bugMatrix bugDB).2.1 = 0 ∧
    (seedAccreditations bugMatrix bugDB).2.2 = 0 ∧
    accreditationPairsAttempted bugMatrix ≠
      (seedAccreditations bugMatrix bugDB).2.1 + (seedAccreditations bugMatrix bugDB).2.2 := by
  decide

/-- The composed optional stages of one completed run: the ledger table is
never touched by the seven seed steps, and each optional step whose file
yielded no data leaves its own tables unchanged. -/
lemma pipeline_frame (ecs : List ExtractedEC) (co : Option (List ExtractedCommittee))
    (ed : Option (List (String × ECDetail))) (certReg : Option (List ExtractedCertifier))
    (centerReg : Option (List ExtractedCenter)) (matrixOpt : Option (List (String × MatrixEntry)))
    (now : Nat) (db : DB) :
    (stageOfferings centerReg
      (stageAccreditations matrixOpt
        (stageCenters centerReg now
          (stageCertifiers certReg now
            (stageResolve ecs co ed now db))))).1.syncJobs = db.syncJobs ∧
    (co = none →
      (stageOfferings centerReg
        (stageAccreditations matrixOpt
          (stageCenters centerReg now
            (stageCertifiers certReg now
              (stageResolve ecs co ed now db))))).1.committees = db.committees) ∧
    (certReg = none →
      (stageOfferings centerReg
        (stageAccreditations matrixOpt
          (stageCenters centerReg now
            (stageCertifiers certReg now
              (stageResolve ecs co ed now db))))).1.certifiers = db.certifiers) ∧
    (centerReg = none →
      (stageOfferings centerReg
        (stageAccreditations matrixOpt
          (stageCenters centerReg now
            (stageCertifiers certReg now
              (stageResolve ecs co ed now db))))).1.centers = db.centers ∧
      (stageOfferings centerReg
        (stageAccreditations matrixOpt
          (stageCenters centerReg now
            (stageCertifiers certReg now
              (stageResolve ecs co ed now db))))).1.offerings = db.offerings) ∧
    (matrixOpt = none →
      (stageOfferings centerReg
        (stageAccreditations matrixOpt
          (stageCenters centerReg now
            (stageCertifiers certReg now
              (stageResolve ecs co ed now db))))).1.accreditations = db.accreditations) := by
  have hresolve := stageResolve_untouched ecs co ed now db
  have hcommNone : co = none →
      (stageResolve ecs co ed now db).1.committees = db.committees := by
    intro h
    rw [stageResolve_committees, h]
    simp
  cases certReg <;> cases centerReg <;> cases matrixOpt <;>
    simp_all [stageCertifiers, stageCenters, stageAccreditations, stageOfferings,
      seedCertifiers, seedCenters, seedAccreditations, seedCenterOfferings]

/-- C5: when the mandatory base standard extract is missing or empty the
run aborts before performing any store writes — the outcome carries the
store unchanged (hence no ledger row) and a non-zero exit code; when the
mandatory extract is present and non-empty the run completes and appends
exactly one ledger row even when non-mandatory files are missing or
unparsable, and each step whose file yielded no data leaves its tables
unchanged. -/
theorem mandatory_input_gate :
    ∀ (files : Files) (t1 t2 : Nat) (db : DB),
    ((loadJsonFile files.ecStandards = none ∨ loadJsonFile files.ecStandards = some []) →
      runMain files t1 t2 db = ⟨db, RunResult.aborted 1⟩) ∧
    (∀ ec0 ecRest, files.dirExists = true →
      loadJsonFile files.ecStandards = some (ec0 :: ecRest) →
      ((runMain files t1 t2 db).result = RunResult.completed ∧
       (runMain files t1 t2 db).db.syncJobs.length = db.syncJobs.length + 1 ∧
       (loadJsonFile files.committees = none →
         (runMain files t1 t2 db).db.committees = db.committees) ∧
       (loadJsonFile files.certifierRegistry = none →
         (runMain files t1 t2 db).db.certifiers = db.certifiers) ∧
       (loadJsonFile files.centerRegistry = none →
         (runMain files t1 t2 db).db.centers = db.centers ∧
         (runMain files t1 t2 db).db.offerings = db.offerings) ∧
       (loadJsonFile files.eceMatrix = none →
         (runMain files t1 t2 db).db.accreditations = db.accreditations))) := by
  intro files t1 t2 db
  constructor
  · intro h
    unfold runMain
    by_cases hd : files.dirExists = false
    · simp [hd]
    · rcases h with h | h <;> simp [hd, h]
  · intro ec0 ecRest hd hec
    have hd' : ¬(files.dirExists = false) := by simp [hd]
    have hframe := pipeline_frame (ec0 :: ecRest) (loadJsonFile files.committees)
      (loadJsonFile files.ecCertifiersAll) (loadJsonFile files.certifierRegistry)
      (loadJsonFile files.centerRegistry) (loadJsonFile files.eceMatrix) t1 db
    have hrm : runMain files t1 t2 db =
        ⟨{ (stageOfferings (loadJsonFile files.centerRegistry)
              (stageAccreditations (loadJsonFile files.eceMatrix)
                (stageCenters (loadJsonFile files.centerRegistry) t1
                  (stageCertifiers (loadJsonFile files.certifierRegistry) t1
                    (stageResolve (ec0 :: ecRest) (loadJsonFile files.committees)
                      (loadJsonFile files.ecCertifiersAll) t1 db))))).1 with
           syncJobs :=
             (stageOfferings (loadJsonFile files.centerRegistry)
               (stageAccreditations (loadJsonFile files.eceMatrix)
                 (stageCenters (loadJsonFile files.centerRegistry) t1
                   (stageCertifiers (loadJsonFile files.certifierRegistry) t1
                     (stageResolve (ec0 :: ecRest) (loadJsonFile files.committees)
                       (loadJsonFile files.ecCertifiersAll) t1 db))))).1.syncJobs ++
             [createSyncJobRecord
               (stageOfferings (loadJsonFile files.centerRegistry)
                 (stageAccreditations (loadJsonFile files.eceMatrix)
                   (stageCenters (loadJsonFile files.centerRegistry) t1
                     (stageCertifiers (loadJsonFile files.certifierRegistry) t1
                       (stageResolve (ec0 :: ecRest) (loadJsonFile files.committees)
                         (loadJsonFile files.ecCertifiersAll) t1 db))))).2 t1 t2] },
         RunResult.completed⟩ := by
      unfold runMain
      rw [if_neg hd', hec]
    rw [hrm]
    refine ⟨rfl, ?_, fun h => hframe.2.1 h, fun h => hframe.2.2.1 h,
            fun h => hframe.2.2.2.1 h, fun h => hframe.2.2.2.2 h⟩
    show (_ ++ [_]).length = db.syncJobs.length + 1
    rw [List.length_append, hframe.1]
    rfl

/-- The scenario inputs of the spec: a data directory holding only the
base standard list with the single record {code: EC0249, sector: 5}
(absent raw fields are the empty string after extraction); every other
extract is missing. `filesMissingMandatory` is the same directory with
the mandatory extract missing too. -/
def ecScenarioRecord : ExtractedEC :=
  { idEstandarCompetencia := "", idSectorProductivo := "5", codigo := "EC0249",
    nivel := "", titulo := "", comite := "", secProductivo := "" }

def scenarioFiles : Files :=
  { dirExists := true, ecStandards := FileState.parsed [ecScenarioRecord],
    eceMatrix := FileState.missing, certifierRegistry := FileState.missing,
    centerRegistry := FileState.missing, committees := FileState.missing,
    ecCertifiersAll := FileState.missing }

def filesMissingMandatory : Files :=
  { dirExists := true, ecStandards := FileState.missing,
    eceMatrix := FileState.missing, certifierRegistry := FileState.missing,
    centerRegistry := FileState.missing, committees := FileState.missing,
    ecCertifiersAll := FileState.missing }

/-- Witness for C5: with the mandatory extract missing the run aborts
with exit code 1 and the store untouched; with the one-record standard
list and everything else missing it completes and appends one ledger
row. -/
theorem mandatory_input_gate_witness :
    runMain filesMissingMandatory 0 1 emptyDB = ⟨emptyDB, RunResult.aborted 1⟩ ∧
    (runMain scenarioFiles 0 1 emptyDB).result = RunResult.completed ∧
    (runMain scenarioFiles 0 1 emptyDB).db.syncJobs.length = emptyDB.syncJobs.length + 1 := by
  have h1 := mandatory_input_gate filesMissingMandatory 0 1 emptyDB
  have h2 := mandatory_input_gate scenarioFiles 0 1 emptyDB
  have h3 := h2.2 ecScenarioRecord [] rfl rfl
  exact ⟨h1.1 (Or.inl rfl), h3.1, h3.2.1⟩

/-- C9: every ledger row written by a completed run reports
itemsCreated equal to itemsProcessed (both the sum of the per-step stat
counts), status COMPLETED, itemsUpdated = 0, itemsSkipped = 0 and an
empty error list — whatever the relationship passes skipped, since the
record is built from the stats alone. -/
theorem syncJob_ledger_approximation :
    ∀ (stats : List (String × Nat)) (t1 t2 : Nat) (files : Files) (t3 t4 : Nat)
      (db : DB) (j : SyncJob),
    (createSyncJobRecord stats t1 t2).itemsCreated =
      (createSyncJobRecord stats t1 t2).itemsProcessed ∧
    (createSyncJobRecord stats t1 t2).itemsProcessed = (stats.map (fun e => e.2)).sum ∧
    (createSyncJobRecord stats t1 t2).status = "COMPLETED" ∧
    (createSyncJobRecord stats t1 t2).itemsUpdated = 0 ∧
    (createSyncJobRecord stats t1 t2).itemsSkipped = 0 ∧
    (createSyncJobRecord stats t1 t2).errors = [] ∧
    (j ∈ (runMain files t3 t4 db).db.syncJobs → j ∈ db.syncJobs ∨
      (j.itemsCreated = j.itemsProcessed ∧ j.status = "COMPLETED" ∧
       j.itemsUpdated = 0 ∧ j.itemsSkipped = 0 ∧ j.errors = [])) := by
  intro stats t1 t2 files t3 t4 db j
  refine ⟨rfl, rfl, rfl, rfl, rfl, rfl, ?_⟩
  intro hmem
  unfold runMain at hmem
  by_cases hd : files.dirExists = false
  · rw [if_pos hd] at hmem
    exact Or.inl hmem
  · rw [if_neg hd] at hmem
    cases hec : loadJsonFile files.ecStandards with
    | none =>
      rw [hec] at hmem
      exact Or.inl hmem
    | some l =>
      cases l with
      | nil =>
        rw [hec] at hmem
        exact Or.inl hmem
      | cons e es =>
        rw [hec] at hmem
        replace hmem : j ∈
            (stageOfferings (loadJsonFile files.centerRegistry)
              (stageAccreditations (loadJsonFile files.eceMatrix)
                (stageCenters (loadJsonFile files.centerRegistry) t3
                  (stageCertifiers (loadJsonFile files.certifierRegistry) t3
                    (stageResolve (e :: es) (loadJsonFile files.committees)
                      (loadJsonFile files.ecCertifiersAll) t3 db))))).1.syncJobs ++
            [createSyncJobRecord
              (stageOfferings (loadJsonFile files.centerRegistry)
                (stageAccreditations (loadJsonFile files.eceMatrix)
                  (stageCenters (loadJsonFile files.centerRegistry) t3
                    (stageCertifiers (loadJsonFile files.certifierRegistry) t3
                      (stageResolve (e :: es) (loadJsonFile files.committees)
                        (loadJsonFile files.ecCertifiersAll) t3 db))))).2 t3 t4] := hmem
        rw [(pipeline_frame (e :: es) (loadJsonFile files.committees)
          (loadJsonFile files.ecCertifiersAll) (loadJsonFile files.certifierRegistry)
          (loadJsonFile files.centerRegistry) (loadJsonFile files.eceMatrix) t3 db).1] at hmem
        rcases List.mem_append.mp hmem with h | h
        · exact Or.inl h
        · have hj := List.mem_singleton.mp h
          subst hj
          exact Or.inr ⟨rfl, rfl, rfl, rfl, rfl⟩

/-- Witness for C9: the ledger row of the one-standard scenario run is a
freshly written row (the store started empty) and carries the claimed
field values. -/
theorem syncJob_ledger_witness :
    createSyncJobRecord [("sectors", 1), ("ecStandards", 1)] 0 1 ∈ emptyDB.syncJobs ∨
    ((createSyncJobRecord [("sectors", 1), ("ecStandards", 1)] 0 1).itemsCreated =
       (createSyncJobRecord [("sectors", 1), ("ecStandards", 1)] 0 1).itemsProcessed ∧
     (createSyncJobRecord [("sectors", 1), ("ecStandards", 1)] 0 1).status = "COMPLETED" ∧
     (createSyncJobRecord [("sectors", 1), ("ecStandards", 1)] 0 1).itemsUpdated = 0 ∧
     (createSyncJobRecord [("sectors", 1), ("ecStandards", 1)] 0 1).itemsSkipped = 0 ∧
     (createSyncJobRecord [("sectors", 1), ("ecStandards", 1)] 0 1).errors = []) := by
  apply (syncJob_ledger_approximation [] 0 1 scenarioFiles 0 1 emptyDB
    (createSyncJobRecord [("sectors", 1), ("ecStandards", 1)] 0 1)).2.2.2.2.2.2
  decide

/-- C3 counterexample: the scenario run (one standard {EC0249, sector 5},
all other extracts absent) writes a ledger row whose itemsProcessed is 2,
not 1 — the sector resolver contributes its own stats entry (one distinct
sector) alongside the one standard processed. -/
theorem scenario_run_items_processed_cex :
    (runMain scenarioFiles 0 1 emptyDB).db.syncJobs.map (fun j => j.itemsProcessed) = [2] ∧
    ¬((runMain scenarioFiles 0 1 emptyDB).db.syncJobs.map (fun j => j.itemsProcessed) = [1]) := by
  decide

/-- C3 (amended): the scenario run over a standard list with exactly one
record {code: EC0249, sector: 5} and absent matrix and registries
completes, produces exactly one Standard row (keyed EC0249), zero
Accreditation rows, and exactly one ledger row, whose itemsProcessed is 2
(one distinct sector plus one standard). -/
theorem scenario_run_result :
    (runMain scenarioFiles 0 1 emptyDB).result = RunResult.completed ∧
    (runMain scenarioFiles 0 1 emptyDB).db.ecs.map (fun e => e.1) = ["EC0249"] ∧
    (runMain scenarioFiles 0 1 emptyDB).db.accreditations = [] ∧
    (runMain scenarioFiles 0 1 emptyDB).db.syncJobs.map (fun j => j.itemsProcessed) = [2] := by
  decide

/-! ## Fingerprint lemmas (C8) -/

lemma length_toHexPad (k n : Nat) : (toHexPad k n).length = k := by
  induction k generalizing n with
  | zero => rfl
  | succ k ih => simp [toHexPad, ih]

lemma take_toHexPad (m k n : Nat) :
    (toHexPad (m + k) n).take m = toHexPad m (n / 16 ^ k) := by
  induction k generalizing n with
  | zero =>
    have hl : (toHexPad m n).length = m := length_toHexPad m n
    have ht := List.take_length (toHexPad m n)
    rw [hl] at ht
    simpa [Nat.div_one] using ht
  | succ k ih =>
    have hstep : toHexPad (m + (k + 1)) n = toHexPad (m + k) (n / 16) ++ [hexDigitChar (n % 16)] := rfl
    rw [hstep, List.take_append_of_le_length (by rw [length_toHexPad]; omega), ih (n / 16),
        Nat.div_div_eq_div_mul]
    have hpow : 16 * 16 ^ k = 16 ^ (k + 1) := (pow_succ' 16 k).symm
    rw [hpow]

lemma sha256Nat_lt (msg : List Nat) : sha256Nat msg < 2 ^ 256 :=
  Nat.mod_lt _ (by positivity)

/-- The 64-bit value whose hex expansion is the stored fingerprint. -/
def hashNat64 (j : Json) : Nat := sha256Nat (utf8Bytes (stringify j)) / 16 ^ 48

lemma contentHash_eq_hex16 (j : Json) :
    contentHash j = String.mk (toHexPad 16 (hashNat64 j)) := by
  unfold contentHash hashNat64
  have h64 : (64 : Nat) = 16 + 48 := rfl
  rw [h64, take_toHexPad]

lemma hashNat64_lt (j : Json) : hashNat64 j < 2 ^ 64 := by
  unfold hashNat64
  have hk : (16 : Nat) ^ 48 = 2 ^ 192 := by norm_num
  rw [hk]
  have h := sha256Nat_lt (utf8Bytes (stringify j))
  exact (Nat.div_lt_iff_lt_mul (by positivity)).mpr (by
    calc sha256Nat (utf8Bytes (stringify j)) < 2 ^ 256 := h
      _ = 2 ^ 64 * 2 ^ 192 := by norm_num)

/-- C8 counterexample: distinct records do NOT always receive distinct
fingerprints — the fingerprint keeps only 16 hex characters (64 bits) of
the digest, so by pigeonhole two of the 2^64 + 1 distinct numeric records
0, 1, ..., 2^64 collide. This refutes the only-if direction of the claim
(the fingerprint is not injective); no explicit colliding pair can be
exhibited, but existence is forced by cardinality. -/
theorem contentHash_not_injective_cex :
    ¬(∀ a b : Json, a ≠ b → contentHash a ≠ contentHash b) := by
  intro hinj
  have hmap : ∀ n ∈ Finset.range (2 ^ 64 + 1),
      hashNat64 (Json.numJ n) ∈ Finset.range (2 ^ 64) :=
    fun n _ => Finset.mem_range.mpr (hashNat64_lt _)
  have hcard : (Finset.range (2 ^ 64)).card < (Finset.range (2 ^ 64 + 1)).card := by
    simp [Finset.card_range]
  obtain ⟨a, ha, b, hb, hne, heq⟩ :=
    Finset.exists_ne_map_eq_of_card_lt_of_maps_to hcard hmap
  have hjne : (Json.numJ a) ≠ (Json.numJ b) := by
    intro h
    injection h with h'
    exact hne (by exact_mod_cast h')
  apply hinj (Json.numJ a) (Json.numJ b) hjne
  rw [contentHash_eq_hex16, contentHash_eq_hex16, heq]

/-- C8 (amended): the content fingerprint is a deterministic function of
the raw source record — it depends only on the JSON serialization, so two
runs over an identical record always produce the identical 16-character
fingerprint; distinct records, however, are only generically (not
provably always) assigned distinct fingerprints, since the digest is
truncated to 64 bits. -/
theorem contentHash_deterministic :
    ∀ a b : Json, stringify a = stringify b →
      (contentHash a = contentHash b ∧ (contentHash a).length = 16) := by
  intro a b h
  constructor
  · unfold contentHash
    rw [h]
  · rw [contentHash_eq_hex16]
    have hmk : (String.mk (toHexPad 16 (hashNat64 a))).length =
        (toHexPad 16 (hashNat64 a)).length := rfl
    rw [hmk, length_toHexPad]

/-- Witness for C8: determinism applied to the null record. -/
theorem contentHash_deterministic_witness :
    contentHash Json.nullJ = contentHash Json.nullJ ∧ (contentHash Json.nullJ).length = 16 :=
  contentHash_deterministic Json.nullJ Json.nullJ rfl

/-! ## Idempotence lemmas (C6)

The upsert keys of every step are functions of the input files alone —
in particular independent of the run timestamp — and the tables each
completed run produces have the closed forms below. -/

lemma sectorEntries_keys (ecs : List ExtractedEC) (now : Nat) :
    (sectorEntries ecs now).map Prod.fst = (sectorNameMap ecs).map (fun e => e.1) := by
  simp [sectorEntries, List.map_map]

lemma committeeEntries_keys (cs : List ExtractedCommittee) (sk : List Int) (now : Nat) :
    (committeeEntries cs sk now).map Prod.fst = cs.map (fun c => c.clave) := by
  simp [committeeEntries, List.map_map]

lemma ecEntries_keys (ecs : List ExtractedEC) (cs : List ExtractedCommittee)
    (ed : Option (List (String × ECDetail))) (sk : List Int) (ck : List String)
    (idx : List (String × String)) (now : Nat) :
    (ecEntries ecs cs ed sk ck idx now).map Prod.fst =
      ecs.filterMap (fun ec => if ec.codigo = "" then none else some ec.codigo) := by
  unfold ecEntries
  rw [List.map_filterMap]
  congr 1
  funext ec
  by_cases h : ec.codigo = "" <;> simp [h]

/-- The standard, certifier and center tables after the respective upsert
step of one run, as functions of the loaded inputs and the starting
store. -/
def ecTableAfter (ecs : List ExtractedEC) (co : Option (List ExtractedCommittee))
    (ed : Option (List (String × ECDetail))) (now : Nat) (db : DB) : List (String × ECRow) :=
  upsertMany db.ecs (ecEntriesFor ecs co ed now)

def certTableAfter (cr : Option (List ExtractedCertifier)) (now : Nat) (db : DB) :
    List (String × CertifierRow) :=
  match cr with
  | some reg => upsertMany db.certifiers (reg.map (fun c => (c.id, certifierRowOf now c)))
  | none => db.certifiers

def centerTableAfter (cer : Option (List ExtractedCenter)) (now : Nat) (db : DB) :
    List (String × CenterRow) :=
  match cer with
  | some reg => upsertMany db.centers (reg.map (fun c => (c.id, centerRowOf now c)))
  | none => db.centers

lemma run_sectors (ecs : List ExtractedEC) (co : Option (List ExtractedCommittee))
    (ed : Option (List (String × ECDetail))) (cr : Option (List ExtractedCertifier))
    (cer : Option (List ExtractedCenter)) (mx : Option (List (String × MatrixEntry)))
    (now : Nat) (db : DB) :
    (stageOfferings cer (stageAccreditations mx (stageCenters cer now
      (stageCertifiers cr now (stageResolve ecs co ed now db))))).1.sectors =
      upsertMany db.sectors (sectorEntries ecs now) := by
  rw [(stageOfferings_frame _ _).1, (stageAccreditations_frame _ _).1,
      (stageCenters_frame _ _ _).1, (stageCertifiers_frame _ _ _).1, stageResolve_sectors]

lemma run_committees (ecs : List ExtractedEC) (co : Option (List ExtractedCommittee))
    (ed : Option (List (String × ECDetail))) (cr : Option (List ExtractedCertifier))
    (cer : Option (List ExtractedCenter)) (mx : Option (List (String × MatrixEntry)))
    (now : Nat) (db : DB) :
    (stageOfferings cer (stageAccreditations mx (stageCenters cer now
      (stageCertifiers cr now (stageResolve ecs co ed now db))))).1.committees =
      (if (co.getD []).length > 0 then
        upsertMany db.committees (committeeEntries (co.getD []) (sectorKeysFor ecs) now)
      else db.committees) := by
  rw [(stageOfferings_frame _ _).2.1, (stageAccreditations_frame _ _).2.1,
      (stageCenters_frame _ _ _).2.1, (stageCertifiers_frame _ _ _).2.1, stageResolve_committees]

lemma run_ecs (ecs : List ExtractedEC) (co : Option (List ExtractedCommittee))
    (ed : Option (List (String × ECDetail))) (cr : Option (List ExtractedCertifier))
    (cer : Option (List ExtractedCenter)) (mx : Option (List (String × MatrixEntry)))
    (now : Nat) (db : DB) :
    (stageOfferings cer (stageAccreditations mx (stageCenters cer now
      (stageCertifiers cr now (stageResolve ecs co ed now db))))).1.ecs =
      ecTableAfter ecs co ed now db := by
  rw [(stageOfferings_frame _ _).2.2.1, (stageAccreditations_frame _ _).2.2.1,
      (stageCenters_frame _ _ _).2.2.1, (stageCertifiers_frame _ _ _).2.2.1, stageResolve_ecs]
  rfl

lemma run_occupations_none (ecs : List ExtractedEC) (co : Option (List ExtractedCommittee))
    (cr : Option (List ExtractedCertifier)) (cer : Option (List ExtractedCenter))
    (mx : Option (List (String × MatrixEntry))) (now : Nat) (db : DB) :
    (stageOfferings cer (stageAccreditations mx (stageCenters cer now
      (stageCertifiers cr now (stageResolve ecs co none now db))))).1.occupations =
      db.occupations := by
  rw [(stageOfferings_frame _ _).2.2.2.1, (stageAccreditations_frame _ _).2.2.2.1,
      (stageCenters_frame _ _ _).2.2.2.1, (stageCertifiers_frame _ _ _).2.2.2.1,
      stageResolve_occupations_none]

lemma run_occupations_some (ecs : List ExtractedEC) (co : Option (List ExtractedCommittee))
    (ds : List (String × ECDetail)) (cr : Option (List ExtractedCertifier))
    (cer : Option (List ExtractedCenter)) (mx : Option (List (String × MatrixEntry)))
    (now : Nat) (db : DB) :
    (stageOfferings cer (stageAccreditations mx (stageCenters cer now
      (stageCertifiers cr now (stageResolve ecs co (some ds) now db))))).1.occupations =
      (createManySkipDup db.occupations
        (occupationPairs ds (dedupKeys ((ecEntriesFor ecs co (some ds) now).map (fun e => e.1))))).1 := by
  rw [(stageOfferings_frame _ _).2.2.2.1, (stageAccreditations_frame _ _).2.2.2.1,
      (stageCenters_frame _ _ _).2.2.2.1, (stageCertifiers_frame _ _ _).2.2.2.1,
      stageResolve_occupations_some]

lemma run_certifiers (ecs : List ExtractedEC) (co : Option (List ExtractedCommittee))
    (ed : Option (List (String × ECDetail))) (cr : Option (List ExtractedCertifier))
    (cer : Option (List ExtractedCenter)) (mx : Option (List (String × MatrixEntry)))
    (now : Nat) (db : DB) :
    (stageOfferings cer (stageAccreditations mx (stageCenters cer now
      (stageCertifiers cr now (stageResolve ecs co ed now db))))).1.certifiers =
      certTableAfter cr now db := by
  rw [(stageOfferings_frame _ _).2.2.2.2.1, (stageAccreditations_frame _ _).2.2.2.2.1,
      (stageCenters_frame _ _ _).2.2.2.2.1]
  cases cr with
  | none => exact (stageResolve_untouched _ _ _ _ _).1
  | some reg =>
    rw [stageCertifiers_certifiers_some, (stageResolve_untouched _ _ _ _ _).1]
    rfl

lemma run_centers (ecs : List ExtractedEC) (co : Option (List ExtractedCommittee))
    (ed : Option (List (String × ECDetail))) (cr : Option (List ExtractedCertifier))
    (cer : Option (List ExtractedCenter)) (mx : Option (List (String × MatrixEntry)))
    (now : Nat) (db : DB) :
    (stageOfferings cer (stageAccreditations mx (stageCenters cer now
      (stageCertifiers cr now (stageResolve ecs co ed now db))))).1.centers =
      centerTableAfter cer now db := by
  rw [(stageOfferings_frame _ _).2.2.2.2.2.1, (stageAccreditations_frame _ _).2.2.2.2.2.1]
  cases cer with
  | none =>
    rw [show (stageCenters none now (stageCertifiers cr now (stageResolve ecs co ed now db))).1.centers =
        (stageCertifiers cr now (stageResolve ecs co ed now db)).1.centers from rfl,
        (stageCertifiers_frame _ _ _).2.2.2.2.1]
    exact (stageResolve_untouched _ _ _ _ _).2.1
  | some reg =>
    rw [stageCenters_centers_some, (stageCertifiers_frame _ _ _).2.2.2.2.1,
        (stageResolve_untouched _ _ _ _ _).2.1]
    rfl

lemma run_accreditations_none (ecs : List ExtractedEC) (co : Option (List ExtractedCommittee))
    (ed : Option (List (String × ECDetail))) (cr : Option (List ExtractedCertifier))
    (cer : Option (List ExtractedCenter)) (now : Nat) (db : DB) :
    (stageOfferings cer (stageAccreditations none (stageCenters cer now
      (stageCertifiers cr now (stageResolve ecs co ed now db))))).1.accreditations =
      db.accreditations := by
  rw [(stageOfferings_frame _ _).2.2.2.2.2.2.1]
  rw [show (stageAccreditations none (stageCenters cer now
      (stageCertifiers cr now (stageResolve ecs co ed now db)))) =
      stageCenters cer now (stageCertifiers cr now (stageResolve ecs co ed now db)) from rfl]
  rw [(stageCenters_frame _ _ _).2.2.2.2.2.1, (stageCertifiers_frame _ _ _).2.2.2.2.2.1]
  exact (stageResolve_untouched _ _ _ _ _).2.2.1

lemma run_accreditations_some (ecs : List ExtractedEC) (co : Option (List ExtractedCommittee))
    (ed : Option (List (String × ECDetail))) (cr : Option (List ExtractedCertifier))
    (cer : Option (List ExtractedCenter)) (m : List (String × MatrixEntry))
    (now : Nat) (db : DB) :
    (stageOfferings cer (stageAccreditations (some m) (stageCenters cer now
      (stageCertifiers cr now (stageResolve ecs co ed now db))))).1.accreditations =
      (createManySkipDup db.accreditations
        (collectAccPairs m ((ecTableAfter ecs co ed now db).map (fun e => e.1))
          ((certTableAfter cr now db).map (fun e => e.1))).1).1 := by
  rw [(stageOfferings_frame _ _).2.2.2.2.2.2.1, stageAccreditations_accs_some]
  have hecs : (stageCenters cer now (stageCertifiers cr now
      (stageResolve ecs co ed now db))).1.ecs = ecTableAfter ecs co ed now db := by
    rw [(stageCenters_frame _ _ _).2.2.1, (stageCertifiers_frame _ _ _).2.2.1, stageResolve_ecs]
    rfl
  have hcert : (stageCenters cer now (stageCertifiers cr now
      (stageResolve ecs co ed now db))).1.certifiers = certTableAfter cr now db := by
    rw [(stageCenters_frame _ _ _).2.2.2.2.1]
    cases cr with
    | none => exact (stageResolve_untouched _ _ _ _ _).1
    | some reg =>
      rw [stageCertifiers_certifiers_some, (stageResolve_untouched _ _ _ _ _).1]
      rfl
  have haccs : (stageCenters cer now (stageCertifiers cr now
      (stageResolve ecs co ed now db))).1.accreditations = db.accreditations := by
    rw [(stageCenters_frame _ _ _).2.2.2.2.2.1, (stageCertifiers_frame _ _ _).2.2.2.2.2.1]
    exact (stageResolve_untouched _ _ _ _ _).2.2.1
  rw [hecs, hcert, haccs]

lemma run_offerings_none (ecs : List ExtractedEC) (co : Option (List ExtractedCommittee))
    (ed : Option (List (String × ECDetail))) (cr : Option (List ExtractedCertifier))
    (mx : Option (List (String × MatrixEntry))) (now : Nat) (db : DB) :
    (stageOfferings none (stageAccreditations mx (stageCenters none now
      (stageCertifiers cr now (stageResolve ecs co ed now db))))).1.offerings =
      db.offerings := by
  rw [show (stageOfferings none (stageAccreditations mx (stageCenters none now
      (stageCertifiers cr now (stageResolve ecs co ed now db))))).1.offerings =
      (stageAccreditations mx (stageCenters none now
        (stageCertifiers cr now (stageResolve ecs co ed now db)))).1.offerings from rfl]
  rw [(stageAccreditations_frame _ _).2.2.2.2.2.2.1]
  rw [show (stageCenters none now (stageCertifiers cr now (stageResolve ecs co ed now db))) =
      stageCertifiers cr now (stageResolve ecs co ed now db) from rfl]
  rw [(stageCertifiers_frame _ _ _).2.2.2.2.2.2.1]
  exact (stageResolve_untouched _ _ _ _ _).2.2.2.1

lemma run_offerings_some (ecs : List ExtractedEC) (co : Option (List ExtractedCommittee))
    (ed : Option (List (String × ECDetail))) (cr : Option (List ExtractedCertifier))
    (reg : List ExtractedCenter) (mx : Option (List (String × MatrixEntry)))
    (now : Nat) (db : DB) :
    (stageOfferings (some reg) (stageAccreditations mx (stageCenters (some reg) now
      (stageCertifiers cr now (stageResolve ecs co ed now db))))).1.offerings =
      (createManySkipDup db.offerings
        (collectOfferingPairs reg
          ((centerTableAfter (some reg) now db).map (fun e => e.1))
          ((ecTableAfter ecs co ed now db).map (fun e => e.1))).1).1 := by
  rw [stageOfferings_offs_some]
  have hctr : (stageAccreditations mx (stageCenters (some reg) now
      (stageCertifiers cr now (stageResolve ecs co ed now db)))).1.centers =
      centerTableAfter (some reg) now db := by
    rw [(stageAccreditations_frame _ _).2.2.2.2.2.1, stageCenters_centers_some,
        (stageCertifiers_frame _ _ _).2.2.2.2.1, (stageResolve_untouched _ _ _ _ _).2.1]
    rfl
  have hecs : (stageAccreditations mx (stageCenters (some reg) now
      (stageCertifiers cr now (stageResolve ecs co ed now db)))).1.ecs =
      ecTableAfter ecs co ed now db := by
    rw [(stageAccreditations_frame _ _).2.2.1, (stageCenters_frame _ _ _).2.2.1,
        (stageCertifiers_frame _ _ _).2.2.1, stageResolve_ecs]
    rfl
  have hoffs : (stageAccreditations mx (stageCenters (some reg) now
      (stageCertifiers cr now (stageResolve ecs co ed now db)))).1.offerings =
      db.offerings := by
    rw [(stageAccreditations_frame _ _).2.2.2.2.2.2.1, (stageCenters_frame _ _ _).2.2.2.2.2.2.1,
        (stageCertifiers_frame _ _ _).2.2.2.2.2.2.1]
    exact (stageResolve_untouched _ _ _ _ _).2.2.2.1
  rw [hctr, hecs, hoffs]

lemma ecEntriesFor_keys (ecs : List ExtractedEC) (co : Option (List ExtractedCommittee))
    (ed : Option (List (String × ECDetail))) (now : Nat) :
    (ecEntriesFor ecs co ed now).map Prod.fst =
      ecs.filterMap (fun ec => if ec.codigo = "" then none else some ec.codigo) :=
  ecEntries_keys ecs (co.getD []) ed (sectorKeysFor ecs) (committeeKeysFor co)
    (buildIndex (co.getD [])) now

lemma certifierEntries_keys (reg : List ExtractedCertifier) (now : Nat) :
    ((reg.map (fun c => (c.id, certifierRowOf now c))).map Prod.fst) =
      reg.map (fun c => c.id) := by
  simp [List.map_map]

lemma centerEntries_keys (reg : List ExtractedCenter) (now : Nat) :
    ((reg.map (fun c => (c.id, centerRowOf now c))).map Prod.fst) =
      reg.map (fun c => c.id) := by
  simp [List.map_map]

/-- A second pass of the seven steps over the store a first pass
produced (its ledger aside) changes no entity key set and no join-table
contents: every upserted key already exists and every collected pair is
already present. -/
lemma stages_idempotent (ecs : List ExtractedEC) (co : Option (List ExtractedCommittee))
    (ed : Option (List (String × ECDetail))) (cr : Option (List ExtractedCertifier))
    (cer : Option (List ExtractedCenter)) (mx : Option (List (String × MatrixEntry)))
    (t1 t3 : Nat) (db D1 : DB)
    (h1 : D1.sectors = (stageOfferings cer (stageAccreditations mx (stageCenters cer t1
      (stageCertifiers cr t1 (stageResolve ecs co ed t1 db))))).1.sectors)
    (h2 : D1.committees = (stageOfferings cer (stageAccreditations mx (stageCenters cer t1
      (stageCertifiers cr t1 (stageResolve ecs co ed t1 db))))).1.committees)
    (h3 : D1.ecs = (stageOfferings cer (stageAccreditations mx (stageCenters cer t1
      (stageCertifiers cr t1 (stageResolve ecs co ed t1 db))))).1.ecs)
    (h4 : D1.certifiers = (stageOfferings cer (stageAccreditations mx (stageCenters cer t1
      (stageCertifiers cr t1 (stageResolve ecs co ed t1 db))))).1.certifiers)
    (h5 : D1.centers = (stageOfferings cer (stageAccreditations mx (stageCenters cer t1
      (stageCertifiers cr t1 (stageResolve ecs co ed t1 db))))).1.centers)
    (h6 : D1.occupations = (stageOfferings cer (stageAccreditations mx (stageCenters cer t1
      (stageCertifiers cr t1 (stageResolve ecs co ed t1 db))))).1.occupations)
    (h7 : D1.accreditations = (stageOfferings cer (stageAccreditations mx (stageCenters cer t1
      (stageCertifiers cr t1 (stageResolve ecs co ed t1 db))))).1.accreditations)
    (h8 : D1.offerings = (stageOfferings cer (stageAccreditations mx (stageCenters cer t1
      (stageCertifiers cr t1 (stageResolve ecs co ed t1 db))))).1.offerings) :
    (stageOfferings cer (stageAccreditations mx (stageCenters cer t3
      (stageCertifiers cr t3 (stageResolve ecs co ed t3 D1))))).1.sectors.map (fun e => e.1) =
      (stageOfferings cer (stageAccreditations mx (stageCenters cer t1
        (stageCertifiers cr t1 (stageResolve ecs co ed t1 db))))).1.sectors.map (fun e => e.1) ∧
    (stageOfferings cer (stageAccreditations mx (stageCenters cer t3
      (stageCertifiers cr t3 (stageResolve ecs co ed t3 D1))))).1.committees.map (fun e => e.1) =
      (stageOfferings cer (stageAccreditations mx (stageCenters cer t1
        (stageCertifiers cr t1 (stageResolve ecs co ed t1 db))))).1.committees.map (fun e => e.1) ∧
    (stageOfferings cer (stageAccreditations mx (stageCenters cer t3
      (stageCertifiers cr t3 (stageResolve ecs co ed t3 D1))))).1.ecs.map (fun e => e.1) =
      (stageOfferings cer (stageAccreditations mx (stageCenters cer t1
        (stageCertifiers cr t1 (stageResolve ecs co ed t1 db))))).1.ecs.map (fun e => e.1) ∧
    (stageOfferings cer (stageAccreditations mx (stageCenters cer t3
      (stageCertifiers cr t3 (stageResolve ecs co ed t3 D1))))).1.certifiers.map (fun e => e.1) =
      (stageOfferings cer (stageAccreditations mx (stageCenters cer t1
        (stageCertifiers cr t1 (stageResolve ecs co ed t1 db))))).1.certifiers.map (fun e => e.1) ∧
    (stageOfferings cer (stageAccreditations mx (stageCenters cer t3
      (stageCertifiers cr t3 (stageResolve ecs co ed t3 D1))))).1.centers.map (fun e => e.1) =
      (stageOfferings cer (stageAccreditations mx (stageCenters cer t1
        (stageCertifiers cr t1 (stageResolve ecs co ed t1 db))))).1.centers.map (fun e => e.1) ∧
    (stageOfferings cer (stageAccreditations mx (stageCenters cer t3
      (stageCertifiers cr t3 (stageResolve ecs co ed t3 D1))))).1.occupations =
      (stageOfferings cer (stageAccreditations mx (stageCenters cer t1
        (stageCertifiers cr t1 (stageResolve ecs co ed t1 db))))).1.occupations ∧
    (stageOfferings cer (stageAccreditations mx (stageCenters cer t3
      (stageCertifiers cr t3 (stageResolve ecs co ed t3 D1))))).1.accreditations =
      (stageOfferings cer (stageAccreditations mx (stageCenters cer t1
        (stageCertifiers cr t1 (stageResolve ecs co ed t1 db))))).1.accreditations ∧
    (stageOfferings cer (stageAccreditations mx (stageCenters cer t3
      (stageCertifiers cr t3 (stageResolve ecs co ed t3 D1))))).1.offerings =
      (stageOfferings cer (stageAccreditations mx (stageCenters cer t1
        (stageCertifiers cr t1 (stageResolve ecs co ed t1 db))))).1.offerings := by
  -- stability of the standard-table key list across the second pass
  have hKec : (ecTableAfter ecs co ed t3 D1).map (fun e => e.1) =
      (ecTableAfter ecs co ed t1 db).map (fun e => e.1) := by
    show (upsertMany D1.ecs (ecEntriesFor ecs co ed t3)).map (fun e => e.1) = _
    rw [h3, run_ecs]
    apply map_fst_upsertMany_of_subset
    intro a ha
    rw [ecEntriesFor_keys] at ha
    apply (mem_map_fst_upsertMany db.ecs (ecEntriesFor ecs co ed t1) a).mpr
    right
    rw [ecEntriesFor_keys]
    exact ha
  -- stability of the certifier-table key list
  have hKcert : (certTableAfter cr t3 D1).map (fun e => e.1) =
      (certTableAfter cr t1 db).map (fun e => e.1) := by
    cases cr with
    | none =>
      show D1.certifiers.map (fun e => e.1) = db.certifiers.map (fun e => e.1)
      rw [h4, run_certifiers]
      rfl
    | some reg =>
      show (upsertMany D1.certifiers (reg.map (fun c => (c.id, certifierRowOf t3 c)))).map (fun e => e.1) =
        (upsertMany db.certifiers (reg.map (fun c => (c.id, certifierRowOf t1 c)))).map (fun e => e.1)
      rw [h4, run_certifiers]
      show (upsertMany (certTableAfter (some reg) t1 db) _).map (fun e => e.1) = _
      apply map_fst_upsertMany_of_subset
      intro a ha
      rw [certifierEntries_keys] at ha
      show a ∈ (upsertMany db.certifiers (reg.map (fun c => (c.id, certifierRowOf t1 c)))).map Prod.fst
      apply (mem_map_fst_upsertMany _ _ a).mpr
      right
      rw [certifierEntries_keys]
      exact ha
  -- stability of the center-table key list
  have hKctr : (centerTableAfter cer t3 D1).map (fun e => e.1) =
      (centerTableAfter cer t1 db).map (fun e => e.1) := by
    cases cer with
    | none =>
      show D1.centers.map (fun e => e.1) = db.centers.map (fun e => e.1)
      rw [h5, run_centers]
      rfl
    | some reg =>
      show (upsertMany D1.centers (reg.map (fun c => (c.id, centerRowOf t3 c)))).map (fun e => e.1) =
        (upsertMany db.centers (reg.map (fun c => (c.id, centerRowOf t1 c)))).map (fun e => e.1)
      rw [h5, run_centers]
      show (upsertMany (centerTableAfter (some reg) t1 db) _).map (fun e => e.1) = _
      apply map_fst_upsertMany_of_subset
      intro a ha
      rw [centerEntries_keys] at ha
      show a ∈ (upsertMany db.centers (reg.map (fun c => (c.id, centerRowOf t1 c)))).map Prod.fst
      apply (mem_map_fst_upsertMany _ _ a).mpr
      right
      rw [centerEntries_keys]
      exact ha
  refine ⟨?_, ?_, ?_, ?_, ?_, ?_, ?_, ?_⟩
  · -- sectors
    rw [run_sectors, run_sectors, h1, run_sectors]
    apply map_fst_upsertMany_of_subset
    intro a ha
    rw [sectorEntries_keys] at ha
    apply (mem_map_fst_upsertMany db.sectors (sectorEntries ecs t1) a).mpr
    right
    rw [sectorEntries_keys]
    exact ha
  · -- committees
    by_cases hbr : (co.getD []).length > 0
    · rw [run_committees, run_committees, if_pos hbr, if_pos hbr, h2, run_committees, if_pos hbr]
      apply map_fst_upsertMany_of_subset
      intro a ha
      rw [committeeEntries_keys] at ha
      apply (mem_map_fst_upsertMany db.committees
        (committeeEntries (co.getD []) (sectorKeysFor ecs) t1) a).mpr
      right
      rw [committeeEntries_keys]
      exact ha
    · rw [run_committees, run_committees, if_neg hbr, if_neg hbr, h2, run_committees, if_neg hbr]
  · -- standards
    rw [run_ecs, run_ecs]
    exact hKec
  · -- certifiers
    rw [run_certifiers, run_certifiers]
    exact hKcert
  · -- centers
    rw [run_centers, run_centers]
    exact hKctr
  · -- occupation pairs
    cases ed with
    | none =>
      rw [run_occupations_none, h6]
    | some ds =>
      rw [run_occupations_some, run_occupations_some]
      have hP : (ecEntriesFor ecs co (some ds) t3).map (fun e => e.1) =
          (ecEntriesFor ecs co (some ds) t1).map (fun e => e.1) := by
        rw [ecEntriesFor_keys, ecEntriesFor_keys]
      rw [hP, h6, run_occupations_some]
      have hsub : ∀ p ∈ occupationPairs ds
          (dedupKeys ((ecEntriesFor ecs co (some ds) t1).map (fun e => e.1))),
          p ∈ (createManySkipDup db.occupations (occupationPairs ds
            (dedupKeys ((ecEntriesFor ecs co (some ds) t1).map (fun e => e.1))))).1 :=
        fun p hp => (mem_createManySkipDup _ _ p).mpr (Or.inr hp)
      rw [createManySkipDup_of_subset _ _ hsub]
  · -- accreditation pairs
    cases mx with
    | none =>
      rw [run_accreditations_none, h7]
    | some m =>
      rw [run_accreditations_some, run_accreditations_some, hKec, hKcert, h7,
          run_accreditations_some]
      have hsub : ∀ p ∈ (collectAccPairs m
          ((ecTableAfter ecs co ed t1 db).map (fun e => e.1))
          ((certTableAfter cr t1 db).map (fun e => e.1))).1,
          p ∈ (createManySkipDup db.accreditations (collectAccPairs m
            ((ecTableAfter ecs co ed t1 db).map (fun e => e.1))
            ((certTableAfter cr t1 db).map (fun e => e.1))).1).1 :=
        fun p hp => (mem_createManySkipDup _ _ p).mpr (Or.inr hp)
      rw [createManySkipDup_of_subset _ _ hsub]
  · -- offering pairs
    cases cer with
    | none =>
      rw [run_offerings_none, h8]
    | some reg =>
      rw [run_offerings_some, run_offerings_some, hKec, hKctr, h8, run_offerings_some]
      have hsub : ∀ p ∈ (collectOfferingPairs reg
          ((centerTableAfter (some reg) t1 db).map (fun e => e.1))
          ((ecTableAfter ecs co ed t1 db).map (fun e => e.1))).1,
          p ∈ (createManySkipDup db.offerings (collectOfferingPairs reg
            ((centerTableAfter (some reg) t1 db).map (fun e => e.1))
            ((ecTableAfter ecs co ed t1 db).map (fun e => e.1))).1).1 :=
        fun p hp => (mem_createManySkipDup _ _ p).mpr (Or.inr hp)
      rw [createManySkipDup_of_subset _ _ hsub]

/-- C6: the full pipeline is idempotent — running it twice against
unchanged input files yields, after the second run, the same entity row
set per natural key (the key list of every entity table is unchanged) and
the same join-table contents (occupation, accreditation and offering
pairs are literally equal): the second run creates no duplicate canonical
row and no duplicate join pair. -/
theorem pipeline_idempotent :
    ∀ (files : Files) (t1 t2 t3 t4 : Nat) (db : DB),
    (runMain files t3 t4 (runMain files t1 t2 db).db).db.sectors.map (fun e => e.1) =
      (runMain files t1 t2 db).db.sectors.map (fun e => e.1) ∧
    (runMain files t3 t4 (runMain files t1 t2 db).db).db.committees.map (fun e => e.1) =
      (runMain files t1 t2 db).db.committees.map (fun e => e.1) ∧
    (runMain files t3 t4 (runMain files t1 t2 db).db).db.ecs.map (fun e => e.1) =
      (runMain files t1 t2 db).db.ecs.map (fun e => e.1) ∧
    (runMain files t3 t4 (runMain files t1 t2 db).db).db.certifiers.map (fun e => e.1) =
      (runMain files t1 t2 db).db.certifiers.map (fun e => e.1) ∧
    (runMain files t3 t4 (runMain files t1 t2 db).db).db.centers.map (fun e => e.1) =
      (runMain files t1 t2 db).db.centers.map (fun e => e.1) ∧
    (runMain files t3 t4 (runMain files t1 t2 db).db).db.occupations =
      (runMain files t1 t2 db).db.occupations ∧
    (runMain files t3 t4 (runMain files t1 t2 db).db).db.accreditations =
      (runMain files t1 t2 db).db.accreditations ∧
    (runMain files t3 t4 (runMain files t1 t2 db).db).db.offerings =
      (runMain files t1 t2 db).db.offerings := by
  intro files t1 t2 t3 t4 db
  by_cases hd : files.dirExists = false
  · have hout : ∀ (t t' : Nat) (d : DB), runMain files t t' d = ⟨d, RunResult.aborted 1⟩ := by
      intro t t' d
      unfold runMain
      rw [if_pos hd]
    rw [hout t1 t2 db, hout t3 t4]
    exact ⟨rfl, rfl, rfl, rfl, rfl, rfl, rfl, rfl⟩
  · cases hec : loadJsonFile files.ecStandards with
    | none =>
      have hout : ∀ (t t' : Nat) (d : DB), runMain files t t' d = ⟨d, RunResult.aborted 1⟩ := by
        intro t t' d
        unfold runMain
        rw [if_neg hd, hec]
      rw [hout t1 t2 db, hout t3 t4]
      exact ⟨rfl, rfl, rfl, rfl, rfl, rfl, rfl, rfl⟩
    | some l =>
      cases l with
      | nil =>
        have hout : ∀ (t t' : Nat) (d : DB), runMain files t t' d = ⟨d, RunResult.aborted 1⟩ := by
          intro t t' d
          unfold runMain
          rw [if_neg hd, hec]
        rw [hout t1 t2 db, hout t3 t4]
        exact ⟨rfl, rfl, rfl, rfl, rfl, rfl, rfl, rfl⟩
      | cons e es =>
        have hout : ∀ (t t' : Nat) (d : DB), runMain files t t' d =
            ⟨{ (stageOfferings (loadJsonFile files.centerRegistry)
                 (stageAccreditations (loadJsonFile files.eceMatrix)
                   (stageCenters (loadJsonFile files.centerRegistry) t
                     (stageCertifiers (loadJsonFile files.certifierRegistry) t
                       (stageResolve (e :: es) (loadJsonFile files.committees)
                         (loadJsonFile files.ecCertifiersAll) t d))))).1 with
                syncJobs :=
                  (stageOfferings (loadJsonFile files.centerRegistry)
                    (stageAccreditations (loadJsonFile files.eceMatrix)
                      (stageCenters (loadJsonFile files.centerRegistry) t
                        (stageCertifiers (loadJsonFile files.certifierRegistry) t
                          (stageResolve (e :: es) (loadJsonFile files.committees)
                            (loadJsonFile files.ecCertifiersAll) t d))))).1.syncJobs ++
                  [createSyncJobRecord
                    (stageOfferings (loadJsonFile files.centerRegistry)
                      (stageAccreditations (loadJsonFile files.eceMatrix)
                        (stageCenters (loadJsonFile files.centerRegistry) t
                          (stageCertifiers (loadJsonFile files.certifierRegistry) t
                            (stageResolve (e :: es) (loadJsonFile files.committees)
                              (loadJsonFile files.ecCertifiersAll) t d))))).2 t t'] },
             RunResult.completed⟩ := by
          intro t t' d
          unfold runMain
          rw [if_neg hd, hec]
        rw [hout t1 t2 db, hout t3 t4]
        exact stages_idempotent (e :: es) (loadJsonFile files.committees)
          (loadJsonFile files.ecCertifiersAll) (loadJsonFile files.certifierRegistry)
          (loadJsonFile files.centerRegistry) (loadJsonFile files.eceMatrix) t1 t3 db _
          rfl rfl rfl rfl rfl rfl rfl rfl

end Avala
